import Mathlib

/-!
# Aleph: one-pole filters (`null/filters.c`), the drum module
(`bfin/modules/drums/drums.c`), the non-interpolated buffer tap (`audio/buffer.h`),
the big-number operator (`op_bignum.c`) and decimal printing (`print_funcs.c`)

Machine integers of the C code (`s32`, `fract32`, `fix16`) are embedded as `Int`
together with the range predicate `isS32`.  A filter object that the C code
mutates through a pointer becomes a record, and every operation returns the
updated record (and the returned value, when the C function returns one).
-/

namespace Aleph

/-! ## 32-bit values and the fixed-point primitives -/

/-- Smallest value of a signed 32-bit integer. -/
def S32_MIN : Int := -2147483648

/-- Largest value of a signed 32-bit integer. -/
def S32_MAX : Int := 2147483647

/-- The value fits the C types `s32`, `fract32` and `fix16`. -/
def isS32 (v : Int) : Prop := S32_MIN ≤ v ∧ v ≤ S32_MAX

instance (v : Int) : Decidable (isS32 v) := by
  unfold isS32
  exact inferInstance

/-- Modelled from the spec: the saturation step shared by the fixed-point
primitives, whose headers `fract32_emu.h` and `fix16.h` are not available; a
result outside the 32-bit range is clamped to the nearest bound. -/
def sat32 (v : Int) : Int :=
  if v > S32_MAX then S32_MAX else if v < S32_MIN then S32_MIN else v

/-- Modelled from the spec: saturating addition of two `fract32` values. -/
def add_fr1x32 (a b : Int) : Int := sat32 (a + b)

/-- Modelled from the spec: saturating subtraction of two `fract32` values. -/
def sub_fr1x32 (a b : Int) : Int := sat32 (a - b)

/-- Modelled from the spec: `fract32` multiply, the 64-bit product shifted
right by 31 bits (an arithmetic shift, so rounding towards minus infinity),
saturated. -/
def mult_fr1x32x32 (a b : Int) : Int := sat32 ((a * b) / 2147483648)

/-- Modelled from the spec: saturating absolute value of a `fract32`. -/
def abs_fr1x32 (a : Int) : Int := sat32 (if a < 0 then -a else a)

/-- Modelled from the spec: saturating addition of two 16.16 values. -/
def fix16_add (a b : Int) : Int := sat32 (a + b)

/-- Modelled from the spec: saturating subtraction of two 16.16 values. -/
def fix16_sub (a b : Int) : Int := sat32 (a - b)

/-- Modelled from the spec: 16.16 multiply, the 64-bit product shifted right
by 16 bits (arithmetic shift), saturated. -/
def fix16_mul (a b : Int) : Int := sat32 ((a * b) / 65536)

/-- Conversion of a signed 32-bit value to `unsigned int`, as C does for the
operand of a comparison whose other operand is unsigned. -/
def toU32 (v : Int) : Int := v % 4294967296

/-! ## `filters.c`: thresholds and comparisons -/

/-- `#define FIX16_COMP_THRESH 0x10000` (an `int` constant). -/
def FIX16_COMP_THRESH : Int := 0x10000

/-- `#define FIX16_COMP_THRESH_NEG 0xfffeffff`: the literal does not fit `int`,
so its C type is `unsigned int` and its value is 4294901759. -/
def FIX16_COMP_THRESH_NEG : Int := 0xfffeffff

/-- `#define FR32_COMP_THRESH 0x7`. -/
def FR32_COMP_THRESH : Int := 0x7

/-- `fr32_compare`: `abs_fr1x32(sub_fr1x32(a, b)) > FR32_COMP_THRESH`. -/
def fr32_compare (a b : Int) : Bool :=
  decide (abs_fr1x32 (sub_fr1x32 a b) > FR32_COMP_THRESH)

/-- `fix16_compare`: `dif < FIX16_COMP_THRESH` is a signed comparison, while in
`dif > FIX16_COMP_THRESH_NEG` the right operand is `unsigned int`, so `dif` is
converted to unsigned before it is compared. -/
def fix16_compare (a b : Int) : Bool :=
  let dif := fix16_sub a b
  decide (dif < FIX16_COMP_THRESH) && decide (toU32 dif > FIX16_COMP_THRESH_NEG)

/-! ## `filters.c`: the 16.16 filter -/

/-- The fields of `filter_1p_fix16` that `filters.c` reads and writes:
coefficient `c`, current value `y`, target `x`, the settled flag `sync`
(written only with 0 and 1, tested for non-zero) and the sample rate `sr`. -/
structure filter_1p_fix16 where
  c : Int
  y : Int
  x : Int
  sync : Bool
  sr : Nat
  deriving DecidableEq, Repr

/-- `filter_1p_fix16_init`: every field is overwritten. -/
def filter_1p_fix16_init (sr : Nat) : filter_1p_fix16 :=
  { c := 0, y := 0, x := 0, sync := true, sr := sr }

/-- `filter_1p_fix16_set_hz`.  The floating-point expression
`fix16_from_float((float) exp(-2.0 * M_PI * fix16_to_float(hz) / (float) sr))`
is the parameter `coef` (the stray `;` inside the call in the source line is
not modelled); the clamp `if (f->c > 0xffff) f->c = 0xffff` is a signed
comparison. -/
def filter_1p_fix16_set_hz (coef : Int → Nat → Int) (f : filter_1p_fix16) (hz : Int) :
    filter_1p_fix16 :=
  let f1 := { f with c := coef hz f.sr }
  if f1.c > 0xffff then { f1 with c := 0xffff } else f1

/-- `filter_1p_fix16_in`: set the target value. -/
def filter_1p_fix16_in (f : filter_1p_fix16) (val : Int) : filter_1p_fix16 :=
  let f1 := { f with x := val }
  { f1 with sync := decide (val = f1.y) }

/-- `filter_1p_fix16_next`: the updated filter and the returned value. -/
def filter_1p_fix16_next (f : filter_1p_fix16) : filter_1p_fix16 × Int :=
  let f1 := { f with y := fix16_add f.x (fix16_mul f.c (fix16_sub f.y f.x)) }
  let f2 := if fix16_compare f1.x f1.y then { f1 with y := f1.x, sync := true } else f1
  (f2, f2.y)

/-! ## `filters.c`: the fract32 filter -/

/-- The fields of `filter_1p_fr32`: coefficient `c`, current value `y`, target
`x` and the settled flag `sync`. -/
structure filter_1p_fr32 where
  c : Int
  y : Int
  x : Int
  sync : Bool
  deriving DecidableEq, Repr

/-- `filter_1p_fr32_init`. -/
def filter_1p_fr32_init : filter_1p_fr32 :=
  { c := 0, y := 0, x := 0, sync := true }

/-- `filter_1p_fr32_set_hz`; the floating-point expression
`float_to_fr32((float) exp(-2.0 * M_PI * fix16_to_float(hz)))` is the
parameter `coef`. -/
def filter_1p_fr32_set_hz (coef : Int → Int) (f : filter_1p_fr32) (hz : Int) :
    filter_1p_fr32 :=
  { f with c := coef hz }

/-- `filter_1p_fr32_set`: set the target value. -/
def filter_1p_fr32_set (f : filter_1p_fr32) (val : Int) : filter_1p_fr32 :=
  let f1 := { f with x := val }
  if val = f1.y then { f1 with sync := true } else { f1 with sync := false }

/-- `filter_1p_fr32_next`: the updated filter and the returned value. -/
def filter_1p_fr32_next (f : filter_1p_fr32) : filter_1p_fr32 × Int :=
  if f.sync then (f, f.y)
  else
    let f1 := { f with y := add_fr1x32 f.x (mult_fr1x32x32 f.c (sub_fr1x32 f.y f.x)) }
    let f2 := if fr32_compare f1.x f1.y then { f1 with y := f1.x, sync := true } else f1
    (f2, f2.y)

/-! ## Runs of filter operations -/

/-- One call on a 16.16 filter. -/
inductive Op16 where
  | set_hz (hz : Int)
  | input (val : Int)
  | next
  deriving DecidableEq, Repr

/-- Apply one call to a 16.16 filter. -/
def Op16.apply (coef : Int → Nat → Int) (f : filter_1p_fix16) : Op16 → filter_1p_fix16
  | .set_hz hz => filter_1p_fix16_set_hz coef f hz
  | .input val => filter_1p_fix16_in f val
  | .next => (filter_1p_fix16_next f).1

/-- The argument of the call fits its C parameter type. -/
def Op16.typed : Op16 → Prop
  | .set_hz hz => isS32 hz
  | .input val => isS32 val
  | .next => True

/-- Run a sequence of calls, first call first. -/
def run16 (coef : Int → Nat → Int) (f : filter_1p_fix16) (ops : List Op16) : filter_1p_fix16 :=
  ops.foldl (Op16.apply coef) f

/-- One call on a fract32 filter. -/
inductive Op32 where
  | set_hz (hz : Int)
  | set (val : Int)
  | next
  deriving DecidableEq, Repr

/-- Apply one call to a fract32 filter. -/
def Op32.apply (coef : Int → Int) (f : filter_1p_fr32) : Op32 → filter_1p_fr32
  | .set_hz hz => filter_1p_fr32_set_hz coef f hz
  | .set val => filter_1p_fr32_set f val
  | .next => (filter_1p_fr32_next f).1

/-- Run a sequence of calls, first call first. -/
def run32 (coef : Int → Int) (f : filter_1p_fr32) (ops : List Op32) : filter_1p_fr32 :=
  ops.foldl (Op32.apply coef) f

/-- `n` successive calls of `filter_1p_fix16_next`. -/
def nexts16 : Nat → filter_1p_fix16 → filter_1p_fix16
  | 0, f => f
  | n + 1, f => nexts16 n (filter_1p_fix16_next f).1

/-- `n` successive calls of `filter_1p_fr32_next`. -/
def nexts32 : Nat → filter_1p_fr32 → filter_1p_fr32
  | 0, f => f
  | n + 1, f => nexts32 n (filter_1p_fr32_next f).1

/-- The invariant of the 16.16 filter: settled implies current equals target. -/
def Inv16 (f : filter_1p_fix16) : Prop := f.sync = true → f.y = f.x

/-- The invariant of the fract32 filter: settled implies current equals target. -/
def Inv32 (f : filter_1p_fr32) : Prop := f.sync = true → f.y = f.x

/-! ## `drums.c`: the drum module -/

/-- The collaborators that `drums.c` calls but does not define: the linear
congruential generator (`noise.h`), the state-variable filter (`filter_svf.h`),
the envelope (`env.h`) and the conversion helpers of `fix.h` and `conversion.h`.
Each is a function on its own state; a function that returns a value returns
the new state and the value. -/
structure DrumsExt (Rng Svf Env : Type) where
  /-- `lcprng_reset`. -/
  lcprng_reset : Rng → Rng
  /-- `lcprng_next`. -/
  lcprng_next : Rng → Rng × Int
  /-- `filter_svf_init`. -/
  filter_svf_init : Svf → Svf
  /-- `filter_svf_next`. -/
  filter_svf_next : Svf → Int → Svf × Int
  /-- `filter_svf_set_hz`. -/
  filter_svf_set_hz : Svf → Int → Svf
  /-- `filter_svf_set_rq`. -/
  filter_svf_set_rq : Svf → Int → Svf
  /-- `filter_svf_set_low`. -/
  filter_svf_set_low : Svf → Int → Svf
  /-- `filter_svf_set_high`. -/
  filter_svf_set_high : Svf → Int → Svf
  /-- `filter_svf_set_band`. -/
  filter_svf_set_band : Svf → Int → Svf
  /-- `filter_svf_set_notch`. -/
  filter_svf_set_notch : Svf → Int → Svf
  /-- `filter_svf_set_peak`. -/
  filter_svf_set_peak : Svf → Int → Svf
  /-- `env_asr_init`. -/
  env_asr_init : Env → Env
  /-- `env_asr_next`. -/
  env_asr_next : Env → Env × Int
  /-- `env_asr_set_gate`. -/
  env_asr_set_gate : Env → Bool → Env
  /-- `env_asr_set_atk_dur`. -/
  env_asr_set_atk_dur : Env → Int → Env
  /-- `env_asr_set_rel_dur`. -/
  env_asr_set_rel_dur : Env → Int → Env
  /-- `env_asr_set_atk_shape`. -/
  env_asr_set_atk_shape : Env → Int → Env
  /-- `env_asr_set_rel_shape`. -/
  env_asr_set_rel_shape : Env → Int → Env
  /-- The macro `FIX16_FRACT_TRUNC`. -/
  FIX16_FRACT_TRUNC : Int → Int
  /-- The macro `BIT_ABS`. -/
  BIT_ABS : Int → Int
  /-- `sec_to_frames_trunc`. -/
  sec_to_frames_trunc : Int → Int
  /-- `fix16_from_int`. -/
  fix16_from_int : Int → Int
  /-- The value of `float_to_fr32(0.5)`. -/
  fr32_half : Int

/-- The enumeration of parameter indices (`module_custom.h`), in the order in
which `module_set_param` lists them, with the count `eParamNumParams`. -/
structure ParamEnum where
  eParamGate : Nat
  eParamSvfHz : Nat
  eParamSvfRq : Nat
  eParamSvfLow : Nat
  eParamSvfHigh : Nat
  eParamSvfBand : Nat
  eParamSvfNotch : Nat
  eParamSvfPeak : Nat
  eParamNoiseAmp : Nat
  eParamInAmp0 : Nat
  eParamInAmp1 : Nat
  eParamInAmp2 : Nat
  eParamInAmp3 : Nat
  eParamAtkDur : Nat
  eParamRelDur : Nat
  eParamAtkCurve : Nat
  eParamRelCurve : Nat
  eParamNumParams : Nat
  deriving DecidableEq, Repr

/-- The members of the enumeration, the count excluded. -/
def ParamEnum.members (p : ParamEnum) : List Nat :=
  [p.eParamGate, p.eParamSvfHz, p.eParamSvfRq, p.eParamSvfLow, p.eParamSvfHigh,
   p.eParamSvfBand, p.eParamSvfNotch, p.eParamSvfPeak, p.eParamNoiseAmp, p.eParamInAmp0,
   p.eParamInAmp1, p.eParamInAmp2, p.eParamInAmp3, p.eParamAtkDur, p.eParamRelDur,
   p.eParamAtkCurve, p.eParamRelCurve]

/-- The enumerators are pairwise different and all below the count, as for a C
enumeration whose last enumerator is the count. -/
def ParamEnum.valid (p : ParamEnum) : Prop :=
  p.members.Nodup ∧ ∀ m ∈ p.members, m < p.eParamNumParams

instance (p : ParamEnum) : Decidable p.valid := by
  unfold ParamEnum.valid
  exact inferInstance

/-- An enumeration numbered from 0 in the order of the `switch`. -/
def sampleParams : ParamEnum :=
  { eParamGate := 0, eParamSvfHz := 1, eParamSvfRq := 2, eParamSvfLow := 3,
    eParamSvfHigh := 4, eParamSvfBand := 5, eParamSvfNotch := 6, eParamSvfPeak := 7,
    eParamNoiseAmp := 8, eParamInAmp0 := 9, eParamInAmp1 := 10, eParamInAmp2 := 11,
    eParamInAmp3 := 12, eParamAtkDur := 13, eParamRelDur := 14, eParamAtkCurve := 15,
    eParamRelCurve := 16, eParamNumParams := 17 }

/-- Modelled from the spec: the 16.16 unity value `fix16_one` (`fix16.h`). -/
def fix16_one : Int := 0x10000

/-- The static variables of `drums.c`, with the objects behind the pointers
`rngH`, `rngL`, `svf` and `ampEnv`. -/
structure Drums (Rng Svf Env : Type) where
  rngH : Rng
  rngL : Rng
  svf : Svf
  ampEnv : Env
  inAmp0 : Int
  inAmp1 : Int
  inAmp2 : Int
  inAmp3 : Int
  noiseAmp : Int
  frameVal : Int

/-- Four channels of one frame: the global arrays `in` and `out`. -/
structure Frame where
  ch0 : Int
  ch1 : Int
  ch2 : Int
  ch3 : Int
  deriving DecidableEq, Repr

variable {Rng Svf Env : Type}

/-- `noise_next`: the high generator's word or-ed with the top half of the low
generator's word. -/
def noise_next (e : DrumsExt Rng Svf Env) (s : Drums Rng Svf Env) : Drums Rng Svf Env × Int :=
  let x : Int := 0
  let h := e.lcprng_next s.rngH
  let s1 := { s with rngH := h.1 }
  let x1 := Int.lor x h.2
  let l := e.lcprng_next s1.rngL
  let s2 := { s1 with rngL := l.1 }
  let x2 := Int.lor x1 (Int.land (Int.shiftRight l.2 16) 0x0000ffff)
  (s2, x2)

/-- `calc_frame`. -/
def calc_frame (e : DrumsExt Rng Svf Env) (s : Drums Rng Svf Env) (inp : Frame) :
    Drums Rng Svf Env :=
  let s0 := { s with frameVal := 0 }
  let n := noise_next e s0
  let s1 := { n.1 with frameVal := mult_fr1x32x32 n.2 n.1.noiseAmp }
  let s2 := { s1 with frameVal := add_fr1x32 s1.frameVal (mult_fr1x32x32 inp.ch0 s1.inAmp0) }
  let s3 := { s2 with frameVal := add_fr1x32 s2.frameVal (mult_fr1x32x32 inp.ch1 s2.inAmp1) }
  let s4 := { s3 with frameVal := add_fr1x32 s3.frameVal (mult_fr1x32x32 inp.ch2 s3.inAmp2) }
  let s5 := { s4 with frameVal := add_fr1x32 s4.frameVal (mult_fr1x32x32 inp.ch3 s4.inAmp3) }
  let f := e.filter_svf_next s5.svf s5.frameVal
  let s6 := { s5 with svf := f.1, frameVal := f.2 }
  let a := e.env_asr_next s6.ampEnv
  { s6 with ampEnv := a.1, frameVal := mult_fr1x32x32 s6.frameVal a.2 }

/-- `module_init`, from the memory contents `s` before the call: the gains, the
noise amplitude, the filter, the two generators and the envelope. -/
def module_init (e : DrumsExt Rng Svf Env) (s : Drums Rng Svf Env) : Drums Rng Svf Env :=
  let s1 := { s with inAmp0 := 0, inAmp1 := 0, inAmp2 := 0, inAmp3 := 0,
                     noiseAmp := Int.shiftRight fix16_one 2 }
  let s2 := { s1 with svf := e.filter_svf_init s1.svf }
  let s3 := { s2 with rngH := e.lcprng_reset s2.rngH }
  let s4 := { s3 with rngL := e.lcprng_reset s3.rngL }
  let s5 := { s4 with ampEnv := e.env_asr_init s4.ampEnv }
  let s6 := { s5 with svf := e.filter_svf_set_hz s5.svf (e.fix16_from_int 220) }
  let s7 := { s6 with svf := e.filter_svf_set_rq s6.svf 0x4000 }
  let s8 := { s7 with svf := e.filter_svf_set_low s7.svf 0x4000 }
  let s9 := { s8 with ampEnv := e.env_asr_set_atk_shape s8.ampEnv e.fr32_half }
  let s10 := { s9 with ampEnv := e.env_asr_set_rel_shape s9.ampEnv e.fr32_half }
  let s11 := { s10 with ampEnv := e.env_asr_set_atk_dur s10.ampEnv 1000 }
  { s11 with ampEnv := e.env_asr_set_rel_dur s11.ampEnv 10000 }

/-- `module_set_param`: the `switch` over the parameter index; `v` is the
32-bit word of the union `pval`, read as `v.s` or as `v.fix`. -/
def module_set_param (e : DrumsExt Rng Svf Env) (p : ParamEnum) (s : Drums Rng Svf Env)
    (idx : Nat) (v : Int) : Drums Rng Svf Env :=
  if idx = p.eParamGate then
    { s with ampEnv := e.env_asr_set_gate s.ampEnv (decide (v > 0)) }
  else if idx = p.eParamSvfHz then
    { s with svf := e.filter_svf_set_hz s.svf v }
  else if idx = p.eParamSvfRq then
    { s with svf := e.filter_svf_set_rq s.svf (e.FIX16_FRACT_TRUNC v) }
  else if idx = p.eParamSvfLow then
    { s with svf := e.filter_svf_set_low s.svf (e.FIX16_FRACT_TRUNC v) }
  else if idx = p.eParamSvfHigh then
    { s with svf := e.filter_svf_set_high s.svf (e.FIX16_FRACT_TRUNC v) }
  else if idx = p.eParamSvfBand then
    { s with svf := e.filter_svf_set_band s.svf (e.FIX16_FRACT_TRUNC v) }
  else if idx = p.eParamSvfNotch then
    { s with svf := e.filter_svf_set_notch s.svf (e.FIX16_FRACT_TRUNC v) }
  else if idx = p.eParamSvfPeak then
    { s with svf := e.filter_svf_set_peak s.svf (e.FIX16_FRACT_TRUNC v) }
  else if idx = p.eParamNoiseAmp then
    { s with noiseAmp := e.FIX16_FRACT_TRUNC v }
  else if idx = p.eParamInAmp0 then
    { s with inAmp0 := e.FIX16_FRACT_TRUNC v }
  else if idx = p.eParamInAmp1 then
    { s with inAmp0 := e.FIX16_FRACT_TRUNC v }
  else if idx = p.eParamInAmp2 then
    { s with inAmp0 := e.FIX16_FRACT_TRUNC v }
  else if idx = p.eParamInAmp3 then
    { s with inAmp0 := e.FIX16_FRACT_TRUNC v }
  else if idx = p.eParamAtkDur then
    { s with ampEnv := e.env_asr_set_atk_dur s.ampEnv (e.sec_to_frames_trunc v) }
  else if idx = p.eParamRelDur then
    { s with ampEnv := e.env_asr_set_rel_dur s.ampEnv (e.sec_to_frames_trunc v) }
  else if idx = p.eParamAtkCurve then
    { s with ampEnv := e.env_asr_set_atk_shape s.ampEnv (e.FIX16_FRACT_TRUNC (e.BIT_ABS v)) }
  else if idx = p.eParamRelCurve then
    { s with ampEnv := e.env_asr_set_atk_shape s.ampEnv (e.FIX16_FRACT_TRUNC (e.BIT_ABS v)) }
  else
    s

/-- `module_process_frame` of the Blackfin build (`ARCH_BFIN`): the new module
state and the contents of `out`. -/
def module_process_frame (e : DrumsExt Rng Svf Env) (s : Drums Rng Svf Env) (inp : Frame) :
    Drums Rng Svf Env × Frame :=
  let s1 := calc_frame e s inp
  (s1, { ch0 := s1.frameVal, ch1 := s1.frameVal, ch2 := s1.frameVal, ch3 := s1.frameVal })

/-- A concrete set of collaborators on integer states, for evaluating the
module: a counter as generator, a filter and an envelope that remember their
last argument. -/
def sampleExt : DrumsExt Int Int Int :=
  { lcprng_reset := fun _ => 1
    lcprng_next := fun r => (r + 1, r)
    filter_svf_init := fun _ => 0
    filter_svf_next := fun f x => (f + 1, x)
    filter_svf_set_hz := fun _ v => v
    filter_svf_set_rq := fun _ v => v
    filter_svf_set_low := fun _ v => v
    filter_svf_set_high := fun _ v => v
    filter_svf_set_band := fun _ v => v
    filter_svf_set_notch := fun _ v => v
    filter_svf_set_peak := fun _ v => v
    env_asr_init := fun _ => 0
    env_asr_next := fun a => (a + 1, 0x7fffffff)
    env_asr_set_gate := fun a g => if g then a + 1 else a - 1
    env_asr_set_atk_dur := fun _ v => v
    env_asr_set_rel_dur := fun _ v => v
    env_asr_set_atk_shape := fun _ v => v
    env_asr_set_rel_shape := fun _ v => v
    FIX16_FRACT_TRUNC := fun v => (v % 65536) * 32768
    BIT_ABS := fun v => if v < 0 then -v else v
    sec_to_frames_trunc := fun v => v * 48000 / 65536
    fix16_from_int := fun v => v * 65536
    fr32_half := 0x40000000 }

/-- The frame value in the words of the specification: the noise sample and
the four inputs, each scaled by its gain, summed left to right with saturating
addition, passed through the filter and multiplied by the envelope value. -/
def frame_value_spec (e : DrumsExt Rng Svf Env) (s : Drums Rng Svf Env) (inp : Frame) : Int :=
  let noise := Int.lor (Int.lor 0 (e.lcprng_next s.rngH).2)
    (Int.land (Int.shiftRight (e.lcprng_next s.rngL).2 16) 0xffff)
  let sum := add_fr1x32 (add_fr1x32 (add_fr1x32 (add_fr1x32
    (mult_fr1x32x32 noise s.noiseAmp)
    (mult_fr1x32x32 inp.ch0 s.inAmp0))
    (mult_fr1x32x32 inp.ch1 s.inAmp1))
    (mult_fr1x32x32 inp.ch2 s.inAmp2))
    (mult_fr1x32x32 inp.ch3 s.inAmp3)
  mult_fr1x32x32 (e.filter_svf_next s.svf sum).2 (e.env_asr_next s.ampEnv).2

/-- The argument that the specification's frame value hands to the filter. -/
def frame_sum_spec (e : DrumsExt Rng Svf Env) (s : Drums Rng Svf Env) (inp : Frame) : Int :=
  let noise := Int.lor (Int.lor 0 (e.lcprng_next s.rngH).2)
    (Int.land (Int.shiftRight (e.lcprng_next s.rngL).2 16) 0xffff)
  add_fr1x32 (add_fr1x32 (add_fr1x32 (add_fr1x32
    (mult_fr1x32x32 noise s.noiseAmp)
    (mult_fr1x32x32 inp.ch0 s.inAmp0))
    (mult_fr1x32x32 inp.ch1 s.inAmp1))
    (mult_fr1x32x32 inp.ch2 s.inAmp2))
    (mult_fr1x32x32 inp.ch3 s.inAmp3)

/-! ## `buffer.h`: the non-interpolated tap -/

/-- The struct `audioBuffer`: frame count, duration and the sample data. -/
structure audioBuffer where
  frames : Nat
  dur : Int
  data : List Int
  deriving DecidableEq, Repr

/-- The struct `bufferTapN`; `buf` stands for the buffer behind the pointer,
the other fields are `u32`. -/
structure bufferTapN where
  buf : audioBuffer
  loop : Nat
  idx : Nat
  inc : Nat
  div : Nat
  divCount : Nat
  deriving DecidableEq, Repr

/-- Number of values of a `u32`. -/
def U32_MOD : Nat := 4294967296

/-- Every `u32` field of the tap holds a 32-bit value. -/
def bufferTapN.typed (t : bufferTapN) : Prop :=
  t.loop < U32_MOD ∧ t.idx < U32_MOD ∧ t.inc < U32_MOD ∧ t.div < U32_MOD ∧ t.divCount < U32_MOD

instance (t : bufferTapN) : Decidable t.typed := by
  unfold bufferTapN.typed
  exact inferInstance

/-- Modelled from the spec: `buffer_tapN_next`, which `buffer.h` declares and
whose body is missing.  The call counts in `divCount`; when the count reaches
`div` it returns to 0 and the index advances by `inc`, wrapped into
`[0, loop)`; otherwise the index is left unchanged.  Sums are taken in `u32`. -/
def buffer_tapN_next (t : bufferTapN) : bufferTapN :=
  let t1 := { t with divCount := (t.divCount + 1) % U32_MOD }
  if t1.divCount ≥ t1.div then
    { t1 with divCount := 0, idx := ((t1.idx + t1.inc) % U32_MOD) % t1.loop }
  else t1

/-- `n` successive calls of `buffer_tapN_next`. -/
def nextsN : Nat → bufferTapN → bufferTapN
  | 0, t => t
  | n + 1, t => nextsN n (buffer_tapN_next t)

/-- One call into the drum module after `module_init`: a parameter change or
the processing of one frame. -/
inductive DrumOp where
  | set_param (idx : Nat) (v : Int)
  | frame (inp : Frame)
  deriving DecidableEq, Repr

/-- Apply one call to the module state. -/
def DrumOp.apply (e : DrumsExt Rng Svf Env) (p : ParamEnum) (s : Drums Rng Svf Env) :
    DrumOp → Drums Rng Svf Env
  | .set_param idx v => module_set_param e p s idx v
  | .frame inp => (module_process_frame e s inp).1

/-- Run a sequence of calls, first call first. -/
def runDrums (e : DrumsExt Rng Svf Env) (p : ParamEnum) (s : Drums Rng Svf Env)
    (ops : List DrumOp) : Drums Rng Svf Env :=
  ops.foldl (DrumOp.apply e p) s

/-! ## `op_bignum.c`: the big-number display operator -/

/-- The collaborators that `op_bignum.c` uses but does not define, acting on
the state `G` of everything outside the operator's own variables (region
pixels, text buffer, screen, timers, debug output): the saturating sum
`op_sadd` and `op_to_int` of the operator maths, the two limits of
`op_bignum.h`, the conversion to the type of the fields `x` and `y` of a
`region`, and the graphics and timer calls. -/
structure BignumExt (G : Type) where
  /-- `op_sadd`. -/
  op_sadd : Int → Int → Int
  /-- `op_to_int`. -/
  op_to_int : Int → Int
  /-- The constant `OP_BIGNUM_X_MAX`. -/
  OP_BIGNUM_X_MAX : Int
  /-- The constant `OP_BIGNUM_Y_MAX`. -/
  OP_BIGNUM_Y_MAX : Int
  /-- Conversion of an `io_t` to the type of `reg.x` and `reg.y`. -/
  to_reg_coord : Int → Int
  /-- `op_gfx_enable`. -/
  op_gfx_enable : G → G
  /-- `op_gfx_disable`. -/
  op_gfx_disable : G → G
  /-- `timers_set_custom` with the given tick count. -/
  timers_set_custom : G → Int → G
  /-- `timer_remove`. -/
  timer_remove : G → G
  /-- `timers_unset_custom`. -/
  timers_unset_custom : G → G
  /-- `region_fill` of the operator's region with the given value. -/
  region_fill : G → Int → G
  /-- The body of `op_bignum_redraw` after its guard: print the value to the
  text buffer, log it, blank the region and render the text. -/
  render : G → Int → G

/-- The variables of `op_bignum_t` that `op_bignum.c` reads and writes, and the
state `world` of everything else. -/
structure op_bignum_t (G : Type) where
  enable : Int
  period : Int
  val : Int
  x : Int
  y : Int
  reg_x : Int
  reg_y : Int
  timer_ticks : Int
  world : G

variable {G : Type}

/-- `op_bignum_redraw`. -/
def op_bignum_redraw (e : BignumExt G) (b : op_bignum_t G) : op_bignum_t G :=
  if b.enable ≤ 0 then b
  else { b with world := e.render b.world b.val }

/-- `op_bignum_set_timer`. -/
def op_bignum_set_timer (e : BignumExt G) (b : op_bignum_t G) : op_bignum_t G :=
  { b with world := e.timers_set_custom b.world (e.op_to_int b.period) }

/-- `op_bignum_unset_timer`. -/
def op_bignum_unset_timer (e : BignumExt G) (b : op_bignum_t G) : op_bignum_t G :=
  let b1 := { b with world := e.timer_remove b.world }
  { b1 with world := e.timers_unset_custom b1.world }

/-- `op_bignum_in_enable`. -/
def op_bignum_in_enable (e : BignumExt G) (b : op_bignum_t G) (v : Int) : op_bignum_t G :=
  if v > 0 then
    if b.enable > 0 then b
    else
      let b1 := { b with world := e.op_gfx_enable b.world }
      let b2 := { b1 with enable := 1 }
      op_bignum_set_timer e b2
  else
    if b.enable > 0 then
      let b1 := { b with world := e.op_gfx_disable b.world }
      let b2 := { b1 with enable := 0 }
      op_bignum_unset_timer e b2
    else b

/-- `op_bignum_in_period`. -/
def op_bignum_in_period (e : BignumExt G) (b : op_bignum_t G) (v : Int) : op_bignum_t G :=
  let b1 := if v < 5 then { b with period := 5 } else { b with period := v }
  { b1 with timer_ticks := e.op_to_int b1.period }

/-- `op_bignum_in_val`. -/
def op_bignum_in_val (e : BignumExt G) (b : op_bignum_t G) (v : Int) : op_bignum_t G :=
  op_bignum_redraw e { b with val := v }

/-- `op_bignum_in_x`; in `bignum->x = bignum->reg.x = v` the operator's field
receives the value stored in the region's field. -/
def op_bignum_in_x (e : BignumExt G) (b : op_bignum_t G) (v : Int) : op_bignum_t G :=
  let b1 := { b with world := e.region_fill b.world 0 }
  let b2 :=
    if v > e.OP_BIGNUM_X_MAX then
      { b1 with reg_x := e.to_reg_coord e.OP_BIGNUM_X_MAX,
                x := e.to_reg_coord e.OP_BIGNUM_X_MAX }
    else
      { b1 with reg_x := e.to_reg_coord v, x := e.to_reg_coord v }
  op_bignum_redraw e b2

/-- `op_bignum_in_y`. -/
def op_bignum_in_y (e : BignumExt G) (b : op_bignum_t G) (v : Int) : op_bignum_t G :=
  let b1 :=
    if v > e.OP_BIGNUM_Y_MAX then
      { b with reg_y := e.to_reg_coord e.OP_BIGNUM_Y_MAX,
               y := e.to_reg_coord e.OP_BIGNUM_Y_MAX }
    else
      { b with reg_y := e.to_reg_coord v, y := e.to_reg_coord v }
  op_bignum_redraw e b1

/-- `op_bignum_inc`: the `switch` over the input index, which has no
`default`. -/
def op_bignum_inc (e : BignumExt G) (b : op_bignum_t G) (idx : Int) (inc : Int) :
    op_bignum_t G :=
  if idx = 0 then
    op_bignum_in_enable e b inc
  else if idx = 1 then
    let val := e.op_sadd b.period inc
    op_bignum_in_period e b val
  else if idx = 2 then
    let val := e.op_sadd b.val inc
    op_bignum_in_val e b val
  else if idx = 3 then
    let val := e.op_sadd b.x inc
    op_bignum_in_x e b val
  else if idx = 4 then
    let val := e.op_sadd b.x inc
    op_bignum_in_y e b val
  else b

/-- A concrete set of collaborators for evaluating the operator: 16-bit
saturating sum, limits 64 and 32, identity conversions, and a world that counts
the calls made into it. -/
def sampleBignumExt : BignumExt Nat :=
  { op_sadd := fun a b =>
      if a + b > 32767 then 32767 else if a + b < -32768 then -32768 else a + b
    op_to_int := fun v => v
    OP_BIGNUM_X_MAX := 64
    OP_BIGNUM_Y_MAX := 32
    to_reg_coord := fun v => v
    op_gfx_enable := fun g => g + 1
    op_gfx_disable := fun g => g + 1
    timers_set_custom := fun g _ => g + 1
    timer_remove := fun g => g + 1
    timers_unset_custom := fun g => g + 1
    region_fill := fun g _ => g + 1
    render := fun g _ => g + 1 }

/-! ## `print_funcs.c`: decimal printing -/

/-- The `do ... while (n)` loop of `print_ulong` on the buffer `tmp`, from the
index `i` and the number `n`: `tmp[--i] = '0' + n % 10; n /= 10;`.  The result
is the buffer and the index after the loop, or `none` when the write index
would fall below 0. -/
def print_ulong_loop (tmp : List Nat) : Nat → Nat → Option (List Nat × Nat)
  | 0, _ => none
  | i + 1, n =>
    let tmp1 := tmp.set i (48 + n % 10)
    let n1 := n / 10
    if n1 ≠ 0 then print_ulong_loop tmp1 i n1 else some (tmp1, i)

/-- The buffer and the index that `print_ulong` hands to `print`: `tmp0` is the
content of the 11-byte array `tmp` on entry. -/
def print_ulong_buf (tmp0 : List Nat) (n : Nat) : Option (List Nat × Nat) :=
  let i := 11 - 1
  let tmp := tmp0.set i 0
  print_ulong_loop tmp i n

/-- The characters of the C string that starts at index `i` of `mem`: those
before the first NUL. -/
def c_string (mem : List Nat) (i : Nat) : List Nat :=
  (mem.drop i).takeWhile (fun c => c ≠ 0)

/-- `print_ulong`: the characters that `print(usart, tmp + i)` transmits. -/
def print_ulong (tmp0 : List Nat) (n : Nat) : Option (List Nat) :=
  match print_ulong_buf tmp0 n with
  | none => none
  | some r => some (c_string r.1 r.2)

/-- The decimal digits of `n`, most significant first, without leading zeros,
and the single digit 0 for `n = 0`. -/
def decimal_digits (n : Nat) : List Nat :=
  if n = 0 then [0] else (Nat.digits 10 n).reverse

/-- The ASCII decimal representation of `n`. -/
def ascii_decimal (n : Nat) : List Nat :=
  (decimal_digits n).map (fun d => 48 + d)

/-! ## Arithmetic facts about the primitives -/

theorem sat32_of_isS32 {v : Int} (h : isS32 v) : sat32 v = v := by
  unfold isS32 S32_MIN S32_MAX at h
  unfold sat32 S32_MIN S32_MAX
  split_ifs <;> omega

theorem isS32_sat32 (v : Int) : isS32 (sat32 v) := by
  unfold isS32 sat32 S32_MIN S32_MAX
  split_ifs <;> omega

theorem sat32_zero : sat32 0 = 0 := by decide

theorem fix16_mul_zero (c : Int) : fix16_mul c 0 = 0 := by
  simp [fix16_mul, sat32_zero]

theorem fix16_compare_self (a : Int) : fix16_compare a a = false := by
  simp [fix16_compare, fix16_sub, sat32_zero, toU32, FIX16_COMP_THRESH_NEG]

/-- On a filter whose current value equals its target, `filter_1p_fix16_next`
changes nothing and returns the current value. -/
theorem fix16_next_of_eq (f : filter_1p_fix16) (hx : isS32 f.x) (hy : f.y = f.x) :
    filter_1p_fix16_next f = (f, f.y) := by
  have h1 : fix16_add f.x (fix16_mul f.c (fix16_sub f.y f.x)) = f.x := by
    rw [hy]
    simp [fix16_sub, sat32_zero, fix16_mul_zero, fix16_add, sat32_of_isS32 hx]
  cases f with
  | mk c y x sync sr =>
    simp only at hy h1 hx
    subst hy
    simp [filter_1p_fix16_next, h1, fix16_compare_self]

theorem fix16_next_x (f : filter_1p_fix16) : (filter_1p_fix16_next f).1.x = f.x := by
  unfold filter_1p_fix16_next
  dsimp only
  split_ifs <;> rfl

theorem fix16_next_c (f : filter_1p_fix16) : (filter_1p_fix16_next f).1.c = f.c := by
  unfold filter_1p_fix16_next
  dsimp only
  split_ifs <;> rfl

theorem fix16_next_inv (f : filter_1p_fix16) (hx : isS32 f.x) (h : Inv16 f) :
    Inv16 (filter_1p_fix16_next f).1 := by
  by_cases hs : f.sync = true
  · rw [fix16_next_of_eq f hx (h hs)]
    exact h
  · unfold filter_1p_fix16_next Inv16
    dsimp only
    split_ifs with hc
    · intro _
      rfl
    · intro h2
      exact absurd h2 hs

theorem fix16_in_inv (f : filter_1p_fix16) (val : Int) : Inv16 (filter_1p_fix16_in f val) := by
  unfold Inv16 filter_1p_fix16_in
  intro h
  have h2 : val = f.y := by simpa using h
  exact h2.symm

theorem fix16_set_hz_inv (coef : Int → Nat → Int) (f : filter_1p_fix16) (hz : Int)
    (h : Inv16 f) : Inv16 (filter_1p_fix16_set_hz coef f hz) := by
  unfold Inv16 filter_1p_fix16_set_hz at *
  dsimp only
  split_ifs <;> exact h

theorem fix16_set_hz_x (coef : Int → Nat → Int) (f : filter_1p_fix16) (hz : Int) :
    (filter_1p_fix16_set_hz coef f hz).x = f.x := by
  unfold filter_1p_fix16_set_hz
  dsimp only
  split_ifs <;> rfl

theorem run16_inv (coef : Int → Nat → Int) (ops : List Op16) :
    ∀ f : filter_1p_fix16, isS32 f.x → Inv16 f → (∀ op ∈ ops, Op16.typed op) →
      Inv16 (run16 coef f ops) ∧ isS32 (run16 coef f ops).x := by
  induction ops with
  | nil =>
    intro f hx h _
    exact ⟨h, hx⟩
  | cons op rest ih =>
    intro f hx h ht
    have hop : Op16.typed op := ht op (List.mem_cons_self _ _)
    have hrest : ∀ o ∈ rest, Op16.typed o := fun o ho => ht o (List.mem_cons_of_mem _ ho)
    show Inv16 (run16 coef (Op16.apply coef f op) rest) ∧ _
    cases op with
    | set_hz hz =>
      exact ih _ (by rw [Op16.apply, fix16_set_hz_x]; exact hx)
        (fix16_set_hz_inv coef f hz h) hrest
    | input val =>
      exact ih _ hop (fix16_in_inv f val) hrest
    | next =>
      exact ih _ (by rw [Op16.apply, fix16_next_x]; exact hx) (fix16_next_inv f hx h) hrest

theorem fr32_next_of_sync (f : filter_1p_fr32) (hs : f.sync = true) :
    filter_1p_fr32_next f = (f, f.y) := by
  simp [filter_1p_fr32_next, hs]

theorem fr32_next_snap (f : filter_1p_fr32) (hs : f.sync = false)
    (hc : fr32_compare f.x (add_fr1x32 f.x (mult_fr1x32x32 f.c (sub_fr1x32 f.y f.x))) = true) :
    filter_1p_fr32_next f = ({ f with y := f.x, sync := true }, f.x) := by
  simp [filter_1p_fr32_next, hs, hc]

theorem fr32_next_keep (f : filter_1p_fr32) (hs : f.sync = false)
    (hc : fr32_compare f.x (add_fr1x32 f.x (mult_fr1x32x32 f.c (sub_fr1x32 f.y f.x))) = false) :
    filter_1p_fr32_next f =
      ({ f with y := add_fr1x32 f.x (mult_fr1x32x32 f.c (sub_fr1x32 f.y f.x)) },
        add_fr1x32 f.x (mult_fr1x32x32 f.c (sub_fr1x32 f.y f.x))) := by
  simp [filter_1p_fr32_next, hs, hc]

theorem fr32_next_inv (f : filter_1p_fr32) (h : Inv32 f) :
    Inv32 (filter_1p_fr32_next f).1 := by
  cases hs : f.sync with
  | true =>
    rw [fr32_next_of_sync f hs]
    exact h
  | false =>
    cases hc : fr32_compare f.x (add_fr1x32 f.x (mult_fr1x32x32 f.c (sub_fr1x32 f.y f.x))) with
    | true =>
      rw [fr32_next_snap f hs hc]
      intro _
      rfl
    | false =>
      rw [fr32_next_keep f hs hc]
      intro h2
      simp [hs] at h2

theorem fr32_set_inv (f : filter_1p_fr32) (val : Int) : Inv32 (filter_1p_fr32_set f val) := by
  unfold Inv32 filter_1p_fr32_set
  by_cases hv : val = f.y
  · simp [hv]
  · simp [hv]

theorem run32_inv (coef : Int → Int) (ops : List Op32) :
    ∀ f : filter_1p_fr32, Inv32 f → Inv32 (run32 coef f ops) := by
  induction ops with
  | nil =>
    intro f h
    exact h
  | cons op rest ih =>
    intro f h
    show Inv32 (run32 coef (Op32.apply coef f op) rest)
    cases op with
    | set_hz hz => exact ih _ h
    | set val => exact ih _ (fr32_set_inv f val)
    | next => exact ih _ (fr32_next_inv f h)

theorem fix16_next_snap (f : filter_1p_fix16)
    (hc : fix16_compare f.x (fix16_add f.x (fix16_mul f.c (fix16_sub f.y f.x))) = true) :
    filter_1p_fix16_next f = ({ f with y := f.x, sync := true }, f.x) := by
  simp [filter_1p_fix16_next, hc]

theorem fix16_next_keep (f : filter_1p_fix16)
    (hc : fix16_compare f.x (fix16_add f.x (fix16_mul f.c (fix16_sub f.y f.x))) = false) :
    filter_1p_fix16_next f =
      ({ f with y := fix16_add f.x (fix16_mul f.c (fix16_sub f.y f.x)) },
        fix16_add f.x (fix16_mul f.c (fix16_sub f.y f.x))) := by
  simp [filter_1p_fix16_next, hc]

/-- `fix16_compare a b` holds exactly when the saturated difference `a - b`
lies in `[-0x10000, -1]`. -/
theorem fix16_compare_iff (a b : Int) :
    fix16_compare a b = true ↔ -65536 ≤ fix16_sub a b ∧ fix16_sub a b ≤ -1 := by
  have h := isS32_sat32 (a - b)
  unfold isS32 S32_MIN S32_MAX at h
  unfold fix16_compare toU32 FIX16_COMP_THRESH FIX16_COMP_THRESH_NEG fix16_sub
  simp only [Bool.and_eq_true, decide_eq_true_eq]
  omega

/-- A product with a factor in `[0, K]`, divided by `K` with rounding towards
minus infinity, lies between the other factor and zero. -/
theorem mul_shift_bounds (K c d : Int) (hK : 0 < K) (hc0 : 0 ≤ c) (hcK : c ≤ K) :
    (0 ≤ d → 0 ≤ c * d / K ∧ c * d / K ≤ d) ∧ (d ≤ 0 → d ≤ c * d / K ∧ c * d / K ≤ 0) := by
  constructor
  · intro hd
    refine ⟨Int.ediv_nonneg (mul_nonneg hc0 hd) hK.le, Int.ediv_le_of_le_mul hK ?_⟩
    nlinarith
  · intro hd
    refine ⟨Int.le_ediv_of_mul_le hK ?_, Int.ediv_le_of_le_mul hK ?_⟩
    · nlinarith
    · nlinarith

/-- The value computed by one 16.16 step lies between the target and the
current value. -/
theorem fix16_step_between (c x y : Int) (hc0 : 0 ≤ c) (hc1 : c ≤ 65536)
    (hx : isS32 x) (hy : isS32 y) :
    (x ≤ y → x ≤ fix16_add x (fix16_mul c (fix16_sub y x)) ∧
      fix16_add x (fix16_mul c (fix16_sub y x)) ≤ y) ∧
    (y ≤ x → y ≤ fix16_add x (fix16_mul c (fix16_sub y x)) ∧
      fix16_add x (fix16_mul c (fix16_sub y x)) ≤ x) := by
  have hb := mul_shift_bounds 65536 c (sat32 (y - x)) (by norm_num) hc0 hc1
  unfold isS32 S32_MIN S32_MAX at hx hy
  unfold fix16_add fix16_mul fix16_sub
  generalize hm : c * sat32 (y - x) / 65536 = m at hb
  revert hb
  unfold sat32 S32_MIN S32_MAX
  intro hb
  constructor
  · intro hxy
    split_ifs at hb ⊢ <;> omega
  · intro hxy
    split_ifs at hb ⊢ <;> omega

/-- The value computed by one fract32 step lies between the target and the
current value. -/
theorem fr32_step_between (c x y : Int) (hc0 : 0 ≤ c) (hc1 : c ≤ 2147483648)
    (hx : isS32 x) (hy : isS32 y) :
    (x ≤ y → x ≤ add_fr1x32 x (mult_fr1x32x32 c (sub_fr1x32 y x)) ∧
      add_fr1x32 x (mult_fr1x32x32 c (sub_fr1x32 y x)) ≤ y) ∧
    (y ≤ x → y ≤ add_fr1x32 x (mult_fr1x32x32 c (sub_fr1x32 y x)) ∧
      add_fr1x32 x (mult_fr1x32x32 c (sub_fr1x32 y x)) ≤ x) := by
  have hb := mul_shift_bounds 2147483648 c (sat32 (y - x)) (by norm_num) hc0 hc1
  unfold isS32 S32_MIN S32_MAX at hx hy
  unfold add_fr1x32 mult_fr1x32x32 sub_fr1x32
  generalize hm : c * sat32 (y - x) / 2147483648 = m at hb
  revert hb
  unfold sat32 S32_MIN S32_MAX
  intro hb
  constructor
  · intro hxy
    split_ifs at hb ⊢ <;> omega
  · intro hxy
    split_ifs at hb ⊢ <;> omega

theorem nexts16_succ (n : Nat) (f : filter_1p_fix16) :
    nexts16 (n + 1) f = (filter_1p_fix16_next (nexts16 n f)).1 := by
  induction n generalizing f with
  | zero => rfl
  | succ k ih =>
    show nexts16 (k + 1) (filter_1p_fix16_next f).1 = _
    rw [ih]
    rfl

theorem nexts32_succ (n : Nat) (f : filter_1p_fr32) :
    nexts32 (n + 1) f = (filter_1p_fr32_next (nexts32 n f)).1 := by
  induction n generalizing f with
  | zero => rfl
  | succ k ih =>
    show nexts32 (k + 1) (filter_1p_fr32_next f).1 = _
    rw [ih]
    rfl

theorem nexts16_fixed (f : filter_1p_fix16) (h : (filter_1p_fix16_next f).1 = f) (n : Nat) :
    nexts16 n f = f := by
  induction n with
  | zero => rfl
  | succ k ih =>
    show nexts16 k (filter_1p_fix16_next f).1 = f
    rw [h]
    exact ih

theorem nexts32_fixed (f : filter_1p_fr32) (h : (filter_1p_fr32_next f).1 = f) (n : Nat) :
    nexts32 n f = f := by
  induction n with
  | zero => rfl
  | succ k ih =>
    show nexts32 k (filter_1p_fr32_next f).1 = f
    rw [h]
    exact ih

theorem fix16_next_isS32_y (f : filter_1p_fix16) (hx : isS32 f.x) :
    isS32 (filter_1p_fix16_next f).1.y := by
  cases hc : fix16_compare f.x (fix16_add f.x (fix16_mul f.c (fix16_sub f.y f.x))) with
  | true =>
    rw [fix16_next_snap f hc]
    exact hx
  | false =>
    rw [fix16_next_keep f hc]
    exact isS32_sat32 _

theorem fr32_next_x (f : filter_1p_fr32) : (filter_1p_fr32_next f).1.x = f.x := by
  cases hs : f.sync with
  | true => rw [fr32_next_of_sync f hs]
  | false =>
    cases hc : fr32_compare f.x (add_fr1x32 f.x (mult_fr1x32x32 f.c (sub_fr1x32 f.y f.x))) with
    | true => rw [fr32_next_snap f hs hc]
    | false => rw [fr32_next_keep f hs hc]

theorem fr32_next_c (f : filter_1p_fr32) : (filter_1p_fr32_next f).1.c = f.c := by
  cases hs : f.sync with
  | true => rw [fr32_next_of_sync f hs]
  | false =>
    cases hc : fr32_compare f.x (add_fr1x32 f.x (mult_fr1x32x32 f.c (sub_fr1x32 f.y f.x))) with
    | true => rw [fr32_next_snap f hs hc]
    | false => rw [fr32_next_keep f hs hc]

theorem fr32_next_isS32_y (f : filter_1p_fr32) (hx : isS32 f.x) (hy : isS32 f.y) :
    isS32 (filter_1p_fr32_next f).1.y := by
  cases hs : f.sync with
  | true =>
    rw [fr32_next_of_sync f hs]
    exact hy
  | false =>
    cases hc : fr32_compare f.x (add_fr1x32 f.x (mult_fr1x32x32 f.c (sub_fr1x32 f.y f.x))) with
    | true =>
      rw [fr32_next_snap f hs hc]
      exact hx
    | false =>
      rw [fr32_next_keep f hs hc]
      exact isS32_sat32 _

/-- One 16.16 step does not move the current value away from the target. -/
theorem fix16_next_dist (f : filter_1p_fix16) (hc0 : 0 ≤ f.c) (hc1 : f.c < 0x10000)
    (hx : isS32 f.x) (hy : isS32 f.y) :
    |(filter_1p_fix16_next f).1.y - f.x| ≤ |f.y - f.x| := by
  have hb := fix16_step_between f.c f.x f.y hc0 (by omega) hx hy
  cases hc : fix16_compare f.x (fix16_add f.x (fix16_mul f.c (fix16_sub f.y f.x))) with
  | true =>
    rw [fix16_next_snap f hc]
    simp
  | false =>
    rw [fix16_next_keep f hc]
    show |fix16_add f.x (fix16_mul f.c (fix16_sub f.y f.x)) - f.x| ≤ _
    generalize fix16_add f.x (fix16_mul f.c (fix16_sub f.y f.x)) = v at hb
    rcases le_total f.x f.y with h | h
    · have := hb.1 h
      cases abs_cases (v - f.x) <;> cases abs_cases (f.y - f.x) <;> omega
    · have := hb.2 h
      cases abs_cases (v - f.x) <;> cases abs_cases (f.y - f.x) <;> omega

/-- One fract32 step does not move the current value away from the target. -/
theorem fr32_next_dist (f : filter_1p_fr32) (hc0 : 0 ≤ f.c) (hc1 : f.c ≤ S32_MAX)
    (hx : isS32 f.x) (hy : isS32 f.y) :
    |(filter_1p_fr32_next f).1.y - f.x| ≤ |f.y - f.x| := by
  have hb := fr32_step_between f.c f.x f.y hc0 (by unfold S32_MAX at hc1; omega) hx hy
  cases hs : f.sync with
  | true =>
    rw [fr32_next_of_sync f hs]
  | false =>
    cases hc : fr32_compare f.x (add_fr1x32 f.x (mult_fr1x32x32 f.c (sub_fr1x32 f.y f.x))) with
    | true =>
      rw [fr32_next_snap f hs hc]
      simp
    | false =>
      rw [fr32_next_keep f hs hc]
      show |add_fr1x32 f.x (mult_fr1x32x32 f.c (sub_fr1x32 f.y f.x)) - f.x| ≤ _
      generalize add_fr1x32 f.x (mult_fr1x32x32 f.c (sub_fr1x32 f.y f.x)) = v at hb
      rcases le_total f.x f.y with h | h
      · have := hb.1 h
        cases abs_cases (v - f.x) <;> cases abs_cases (f.y - f.x) <;> omega
      · have := hb.2 h
        cases abs_cases (v - f.x) <;> cases abs_cases (f.y - f.x) <;> omega

theorem nexts16_frame (n : Nat) (f : filter_1p_fix16) (hx : isS32 f.x) (hy : isS32 f.y) :
    (nexts16 n f).x = f.x ∧ (nexts16 n f).c = f.c ∧ isS32 (nexts16 n f).y := by
  induction n with
  | zero => exact ⟨rfl, rfl, hy⟩
  | succ k ih =>
    rw [nexts16_succ, fix16_next_x, fix16_next_c]
    exact ⟨ih.1, ih.2.1, fix16_next_isS32_y _ (by rw [ih.1]; exact hx)⟩

theorem nexts32_frame (n : Nat) (f : filter_1p_fr32) (hx : isS32 f.x) (hy : isS32 f.y) :
    (nexts32 n f).x = f.x ∧ (nexts32 n f).c = f.c ∧ isS32 (nexts32 n f).y := by
  induction n with
  | zero => exact ⟨rfl, rfl, hy⟩
  | succ k ih =>
    rw [nexts32_succ, fr32_next_x, fr32_next_c]
    exact ⟨ih.1, ih.2.1, fr32_next_isS32_y _ (by rw [ih.1]; exact hx) ih.2.2⟩

/-- A 16.16 filter whose current value is at or below its target is never
marked settled by `filter_1p_fix16_next`. -/
theorem fix16_below_never_settles (n : Nat) :
    ∀ f : filter_1p_fix16, 0 ≤ f.c → f.c < 0x10000 → isS32 f.x → isS32 f.y → f.y ≤ f.x →
      f.sync = false → (nexts16 n f).sync = false := by
  induction n with
  | zero =>
    intro f _ _ _ _ _ hs
    exact hs
  | succ k ih =>
    intro f hc0 hc1 hx hy hxy hs
    have hb := (fix16_step_between f.c f.x f.y hc0 (by omega) hx hy).2 hxy
    have hc : fix16_compare f.x (fix16_add f.x (fix16_mul f.c (fix16_sub f.y f.x))) = false := by
      rw [Bool.eq_false_iff]
      intro h
      rw [fix16_compare_iff] at h
      revert h hb
      generalize fix16_add f.x (fix16_mul f.c (fix16_sub f.y f.x)) = v
      unfold fix16_sub sat32 S32_MIN S32_MAX
      unfold isS32 S32_MIN S32_MAX at hx hy
      intro hb
      split_ifs <;> omega
    show (nexts16 k (filter_1p_fix16_next f).1).sync = false
    rw [fix16_next_keep f hc]
    exact ih _ hc0 hc1 hx (isS32_sat32 _) hb.2 hs

/-! ## The claims -/

/-- C1: for both filter variants, "settled implies current equals target" holds
after init, is preserved by set_hz, by setting the target and by next (for every
coefficient and every 32-bit input value), and so holds after every run of
calls that starts with init. -/
theorem C1_settled_implies_current_eq_target :
    (∀ sr, Inv16 (filter_1p_fix16_init sr)) ∧
    (∀ coef f hz, Inv16 f → Inv16 (filter_1p_fix16_set_hz coef f hz)) ∧
    (∀ f val, Inv16 (filter_1p_fix16_in f val)) ∧
    (∀ f, isS32 f.x → Inv16 f → Inv16 (filter_1p_fix16_next f).1) ∧
    (∀ coef sr ops, (∀ op ∈ ops, Op16.typed op) →
      Inv16 (run16 coef (filter_1p_fix16_init sr) ops)) ∧
    Inv32 filter_1p_fr32_init ∧
    (∀ coef f hz, Inv32 f → Inv32 (filter_1p_fr32_set_hz coef f hz)) ∧
    (∀ f val, Inv32 (filter_1p_fr32_set f val)) ∧
    (∀ f, Inv32 f → Inv32 (filter_1p_fr32_next f).1) ∧
    (∀ coef ops, Inv32 (run32 coef filter_1p_fr32_init ops)) := by
  have i16 : ∀ sr, Inv16 (filter_1p_fix16_init sr) := fun _ _ => rfl
  have i32 : Inv32 filter_1p_fr32_init := fun _ => rfl
  refine ⟨i16, fix16_set_hz_inv, fix16_in_inv, fix16_next_inv, ?_, i32, ?_, fr32_set_inv,
    fr32_next_inv, ?_⟩
  · intro coef sr ops ht
    have h0 : isS32 (filter_1p_fix16_init sr).x := by
      show isS32 0
      decide
    exact (run16_inv coef ops _ h0 (i16 sr) ht).1
  · intro coef f hz h
    exact h
  · intro coef ops
    exact run32_inv coef ops _ i32

/-- C1 at a concrete run: target 3.0 set on a fresh 16.16 filter, a cutoff
change and two steps, with a coefficient mapping that always yields 0.5. -/
theorem C1_settled_implies_current_eq_target_witness :
    Inv16 (run16 (fun _ _ => 0x8000) (filter_1p_fix16_init 48000)
      [Op16.input 0x30000, Op16.set_hz 0x640000, Op16.next, Op16.next]) :=
  C1_settled_implies_current_eq_target.2.2.2.2.1 (fun _ _ => 0x8000) 48000
    [Op16.input 0x30000, Op16.set_hz 0x640000, Op16.next, Op16.next]
    (by
      intro op hop
      simp only [List.mem_cons, List.mem_singleton, List.not_mem_nil, or_false] at hop
      rcases hop with h | h | h | h <;> subst h <;> simp [Op16.typed] <;> decide)

/-- C2: on a filter that is not settled, `filter_1p_fr32_next` computes
`target + coefficient * (current - target)` and then snaps to the target and
sets settled exactly when the distance of that value from the target is ABOVE
`FR32_COMP_THRESH`; under the threshold it keeps the value and leaves settled
false.  At coefficient 0.5, current 0, target 0.5 the computed value 0.25 is
discarded although it is far from the target; at coefficient 0, current 0,
target 5 the computed value equals the target and settled stays false. -/
theorem C2_fr32_next_snaps_above_threshold :
    (∀ f : filter_1p_fr32, f.sync = false →
      filter_1p_fr32_next f =
        if abs_fr1x32 (sub_fr1x32 f.x (add_fr1x32 f.x (mult_fr1x32x32 f.c (sub_fr1x32 f.y f.x))))
            > FR32_COMP_THRESH
        then ({ f with y := f.x, sync := true }, f.x)
        else ({ f with y := add_fr1x32 f.x (mult_fr1x32x32 f.c (sub_fr1x32 f.y f.x)) },
          add_fr1x32 f.x (mult_fr1x32x32 f.c (sub_fr1x32 f.y f.x)))) ∧
    add_fr1x32 0x40000000 (mult_fr1x32x32 0x40000000 (sub_fr1x32 0 0x40000000)) = 0x20000000 ∧
    filter_1p_fr32_next { c := 0x40000000, y := 0, x := 0x40000000, sync := false } =
      ({ c := 0x40000000, y := 0x40000000, x := 0x40000000, sync := true }, 0x40000000) ∧
    filter_1p_fr32_next { c := 0, y := 0, x := 5, sync := false } =
      ({ c := 0, y := 5, x := 5, sync := false }, 5) := by
  refine ⟨?_, by decide, by decide, by decide⟩
  intro f hs
  cases hc : fr32_compare f.x (add_fr1x32 f.x (mult_fr1x32x32 f.c (sub_fr1x32 f.y f.x))) with
  | true =>
    rw [fr32_next_snap f hs hc]
    have h : abs_fr1x32 (sub_fr1x32 f.x (add_fr1x32 f.x (mult_fr1x32x32 f.c (sub_fr1x32 f.y f.x))))
        > FR32_COMP_THRESH := by simpa [fr32_compare] using hc
    rw [if_pos h]
  | false =>
    rw [fr32_next_keep f hs hc]
    have h : ¬ abs_fr1x32 (sub_fr1x32 f.x (add_fr1x32 f.x (mult_fr1x32x32 f.c (sub_fr1x32 f.y f.x))))
        > FR32_COMP_THRESH := by simpa [fr32_compare] using hc
    rw [if_neg h]

/-- C3: there are coefficients in `[0, unity)` and targets for which no number
of `next` calls makes the filter settled.  A fresh 16.16 filter (coefficient 0)
given target 1.0 reaches the target value after one step but is never marked
settled; with coefficient 0.5 and target 1.0 from current 0 it is never marked
settled either; a fresh fract32 filter given the largest target, and one with
coefficient 1, are never marked settled. -/
theorem C3_filters_that_never_settle :
    (∀ sr n, (nexts16 (n + 1) (filter_1p_fix16_in (filter_1p_fix16_init sr) 0x10000)).y = 0x10000 ∧
      (nexts16 n (filter_1p_fix16_in (filter_1p_fix16_init sr) 0x10000)).sync = false) ∧
    (∀ sr n, (nexts16 n { c := 0x8000, y := 0, x := 0x10000, sync := false, sr := sr }).sync
      = false) ∧
    (∀ n, (nexts32 (n + 1) (filter_1p_fr32_set filter_1p_fr32_init 0x7fffffff)).y = 0x7fffffff ∧
      (nexts32 n (filter_1p_fr32_set filter_1p_fr32_init 0x7fffffff)).sync = false) ∧
    (∀ n, (nexts32 n { c := 1, y := 0, x := 0x7fffffff, sync := false }).sync = false) := by
  refine ⟨?_, ?_, ?_, ?_⟩
  · intro sr n
    have h1 : (filter_1p_fix16_next (filter_1p_fix16_in (filter_1p_fix16_init sr) 0x10000)).1
        = { c := 0, y := 0x10000, x := 0x10000, sync := false, sr := sr } := by
      have hv : fix16_add 65536 (fix16_mul 0 (fix16_sub 0 65536)) = 65536 := by decide
      have hc : fix16_compare 65536 65536 = false := by decide
      simp [filter_1p_fix16_next, filter_1p_fix16_in, filter_1p_fix16_init, hv, hc]
    have h2 : (filter_1p_fix16_next
        { c := 0, y := 0x10000, x := 0x10000, sync := false, sr := sr }).1
        = { c := 0, y := 0x10000, x := 0x10000, sync := false, sr := sr } := by
      rw [fix16_next_of_eq _ (show isS32 (65536 : Int) by decide) rfl]
    have h3 : ∀ k, nexts16 (k + 1) (filter_1p_fix16_in (filter_1p_fix16_init sr) 0x10000)
        = { c := 0, y := 0x10000, x := 0x10000, sync := false, sr := sr } := by
      intro k
      show nexts16 k (filter_1p_fix16_next _).1 = _
      rw [h1]
      exact nexts16_fixed _ h2 k
    refine ⟨by rw [h3], ?_⟩
    cases n with
    | zero => rfl
    | succ k => rw [h3]
  · intro sr n
    exact fix16_below_never_settles n _ (show (0 : Int) ≤ 0x8000 by decide)
      (show (0x8000 : Int) < 0x10000 by decide) (show isS32 (0x10000 : Int) by decide)
      (show isS32 (0 : Int) by decide) (show (0 : Int) ≤ 0x10000 by decide) rfl
  · intro n
    have h1 : (filter_1p_fr32_next (filter_1p_fr32_set filter_1p_fr32_init 0x7fffffff)).1
        = { c := 0, y := 0x7fffffff, x := 0x7fffffff, sync := false } := by decide
    have h2 : (filter_1p_fr32_next { c := 0, y := 0x7fffffff, x := 0x7fffffff, sync := false }).1
        = { c := 0, y := 0x7fffffff, x := 0x7fffffff, sync := false } := by decide
    have h3 : ∀ k, nexts32 (k + 1) (filter_1p_fr32_set filter_1p_fr32_init 0x7fffffff)
        = { c := 0, y := 0x7fffffff, x := 0x7fffffff, sync := false } := by
      intro k
      show nexts32 k (filter_1p_fr32_next _).1 = _
      rw [h1]
      exact nexts32_fixed _ h2 k
    refine ⟨by rw [h3], ?_⟩
    cases n with
    | zero => rfl
    | succ k => rw [h3]
  · intro n
    have h1 : (filter_1p_fr32_next { c := 1, y := 0, x := 0x7fffffff, sync := false }).1
        = { c := 1, y := 0x7ffffffe, x := 0x7fffffff, sync := false } := by decide
    have h2 : (filter_1p_fr32_next { c := 1, y := 0x7ffffffe, x := 0x7fffffff, sync := false }).1
        = { c := 1, y := 0x7ffffffe, x := 0x7fffffff, sync := false } := by decide
    cases n with
    | zero => rfl
    | succ k =>
      show (nexts32 k (filter_1p_fr32_next _).1).sync = false
      rw [h1, nexts32_fixed _ h2 k]

/-- C4: on a settled filter (settled true, current equal to target) `next`
returns the current value and leaves every field unchanged, for both variants,
and so does any number of further `next` calls. -/
theorem C4_next_on_settled_is_noop :
    (∀ f : filter_1p_fix16, isS32 f.x → f.sync = true → f.y = f.x →
      filter_1p_fix16_next f = (f, f.y) ∧ ∀ n, nexts16 n f = f) ∧
    (∀ f : filter_1p_fr32, f.sync = true → f.y = f.x →
      filter_1p_fr32_next f = (f, f.y) ∧ ∀ n, nexts32 n f = f) := by
  constructor
  · intro f hx _ hy
    have h := fix16_next_of_eq f hx hy
    exact ⟨h, nexts16_fixed f (by rw [h])⟩
  · intro f hs _
    have h := fr32_next_of_sync f hs
    exact ⟨h, nexts32_fixed f (by rw [h])⟩

/-- C4 at a 16.16 filter settled on 3.0 with coefficient 0.5. -/
theorem C4_next_on_settled_is_noop_witness :
    filter_1p_fix16_next { c := 0x8000, y := 0x30000, x := 0x30000, sync := true, sr := 48000 }
      = ({ c := 0x8000, y := 0x30000, x := 0x30000, sync := true, sr := 48000 }, 0x30000) ∧
    ∀ n, nexts16 n { c := 0x8000, y := 0x30000, x := 0x30000, sync := true, sr := 48000 }
      = { c := 0x8000, y := 0x30000, x := 0x30000, sync := true, sr := 48000 } :=
  C4_next_on_settled_is_noop.1
    { c := 0x8000, y := 0x30000, x := 0x30000, sync := true, sr := 48000 } (by decide) rfl rfl

/-- C5: for a coefficient in `[0, unity)` one `next` call never increases the
distance between current and target, for both variants, and the target is not
changed by the call; hence along repeated calls the distance never grows. -/
theorem C5_next_never_increases_distance :
    (∀ f : filter_1p_fix16, 0 ≤ f.c → f.c < 0x10000 → isS32 f.x → isS32 f.y →
      (filter_1p_fix16_next f).1.x = f.x ∧
      |(filter_1p_fix16_next f).1.y - f.x| ≤ |f.y - f.x| ∧
      ∀ n, |(nexts16 (n + 1) f).y - f.x| ≤ |(nexts16 n f).y - f.x|) ∧
    (∀ f : filter_1p_fr32, 0 ≤ f.c → f.c ≤ S32_MAX → isS32 f.x → isS32 f.y →
      (filter_1p_fr32_next f).1.x = f.x ∧
      |(filter_1p_fr32_next f).1.y - f.x| ≤ |f.y - f.x| ∧
      ∀ n, |(nexts32 (n + 1) f).y - f.x| ≤ |(nexts32 n f).y - f.x|) := by
  constructor
  · intro f hc0 hc1 hx hy
    refine ⟨fix16_next_x f, fix16_next_dist f hc0 hc1 hx hy, ?_⟩
    intro n
    obtain ⟨h1, h2, h3⟩ := nexts16_frame n f hx hy
    rw [nexts16_succ]
    have h := fix16_next_dist (nexts16 n f) (by rw [h2]; exact hc0) (by rw [h2]; exact hc1)
      (by rw [h1]; exact hx) h3
    rw [h1] at h
    exact h
  · intro f hc0 hc1 hx hy
    refine ⟨fr32_next_x f, fr32_next_dist f hc0 hc1 hx hy, ?_⟩
    intro n
    obtain ⟨h1, h2, h3⟩ := nexts32_frame n f hx hy
    rw [nexts32_succ]
    have h := fr32_next_dist (nexts32 n f) (by rw [h2]; exact hc0) (by rw [h2]; exact hc1)
      (by rw [h1]; exact hx) h3
    rw [h1] at h
    exact h

/-- C5 at a 16.16 filter with coefficient 0.5 moving from 0 towards 3.0. -/
theorem C5_next_never_increases_distance_witness :
    (filter_1p_fix16_next { c := 0x8000, y := 0, x := 0x30000, sync := false, sr := 48000 }).1.x
      = 0x30000 ∧
    |(filter_1p_fix16_next { c := 0x8000, y := 0, x := 0x30000, sync := false, sr := 48000 }).1.y
      - 0x30000| ≤ |(0 : Int) - 0x30000| ∧
    ∀ n, |(nexts16 (n + 1) { c := 0x8000, y := 0, x := 0x30000, sync := false, sr := 48000 }).y
        - 0x30000|
      ≤ |(nexts16 n { c := 0x8000, y := 0, x := 0x30000, sync := false, sr := 48000 }).y
        - 0x30000| :=
  C5_next_never_increases_distance.1
    { c := 0x8000, y := 0, x := 0x30000, sync := false, sr := 48000 }
    (by decide) (by decide) (by decide) (by decide)

/-- C6: the 16.16 `next` snaps to the target and sets settled only when the
new current value is ABOVE the target by 1 to 0x10000 raw units
(`fix16_compare` holds exactly for a difference in `[-0x10000, -1]`).  With a
new current value 0.5 below the target (magnitude under the threshold) it
neither snaps nor sets settled; with a new current value exactly 1.0 above the
target (magnitude not under the threshold) it does both. -/
theorem C6_fix16_snaps_only_from_above :
    (∀ a b, fix16_compare a b = true ↔ -65536 ≤ fix16_sub a b ∧ fix16_sub a b ≤ -1) ∧
    filter_1p_fix16_next { c := 0x8000, y := 0x10000, x := 0x20000, sync := false, sr := 48000 }
      = ({ c := 0x8000, y := 0x18000, x := 0x20000, sync := false, sr := 48000 }, 0x18000) ∧
    fix16_add 0x10000 (fix16_mul 0x8000 (fix16_sub 0x30000 0x10000)) = 0x20000 ∧
    filter_1p_fix16_next { c := 0x8000, y := 0x30000, x := 0x10000, sync := false, sr := 48000 }
      = ({ c := 0x8000, y := 0x10000, x := 0x10000, sync := true, sr := 48000 }, 0x10000) :=
  ⟨fix16_compare_iff, by decide, by decide, by decide⟩

/-- C7: setting the target stores the value as target, makes settled equal to
"value equals current", and leaves current and coefficient (and, for the 16.16
filter, the sample rate) unchanged, for both variants. -/
theorem C7_set_target :
    (∀ (f : filter_1p_fix16) (v : Int),
      (filter_1p_fix16_in f v).x = v ∧
      ((filter_1p_fix16_in f v).sync = true ↔ v = f.y) ∧
      (filter_1p_fix16_in f v).y = f.y ∧
      (filter_1p_fix16_in f v).c = f.c ∧
      (filter_1p_fix16_in f v).sr = f.sr) ∧
    (∀ (f : filter_1p_fr32) (v : Int),
      (filter_1p_fr32_set f v).x = v ∧
      ((filter_1p_fr32_set f v).sync = true ↔ v = f.y) ∧
      (filter_1p_fr32_set f v).y = f.y ∧
      (filter_1p_fr32_set f v).c = f.c) := by
  constructor
  · intro f v
    simp [filter_1p_fix16_in]
  · intro f v
    unfold filter_1p_fr32_set
    by_cases hv : v = f.y
    · simp [hv]
    · simp [hv]

/-- C8: on the Blackfin build `module_process_frame` writes one value to all
four output channels, and that value is the envelope value times the filtered
saturating sum of the gain-scaled noise sample and inputs; each generator, the
filter and the envelope advance by exactly one call, and the gains are not
changed. -/
theorem C8_process_frame_fans_out_one_value (e : DrumsExt Rng Svf Env)
    (s : Drums Rng Svf Env) (inp : Frame) :
    (module_process_frame e s inp).2 =
      { ch0 := frame_value_spec e s inp, ch1 := frame_value_spec e s inp,
        ch2 := frame_value_spec e s inp, ch3 := frame_value_spec e s inp } ∧
    (module_process_frame e s inp).1 =
      { rngH := (e.lcprng_next s.rngH).1,
        rngL := (e.lcprng_next s.rngL).1,
        svf := (e.filter_svf_next s.svf (frame_sum_spec e s inp)).1,
        ampEnv := (e.env_asr_next s.ampEnv).1,
        inAmp0 := s.inAmp0, inAmp1 := s.inAmp1, inAmp2 := s.inAmp2, inAmp3 := s.inAmp3,
        noiseAmp := s.noiseAmp,
        frameVal := frame_value_spec e s inp } :=
  ⟨rfl, rfl⟩

/-- C9: for an index that is none of the enumerators `module_set_param` returns
the module state unchanged; when the enumerators are all below
`eParamNumParams`, this covers every index from `eParamNumParams` on. -/
theorem C9_set_param_unknown_index_is_noop (e : DrumsExt Rng Svf Env) (p : ParamEnum)
    (s : Drums Rng Svf Env) (idx : Nat) (v : Int) :
    (idx ∉ p.members → module_set_param e p s idx v = s) ∧
    (p.valid → p.eParamNumParams ≤ idx → module_set_param e p s idx v = s) := by
  have key : idx ∉ p.members → module_set_param e p s idx v = s := by
    intro h
    simp only [ParamEnum.members, List.mem_cons, List.mem_singleton, List.not_mem_nil,
      or_false, not_or] at h
    obtain ⟨h1, h2, h3, h4, h5, h6, h7, h8, h9, h10, h11, h12, h13, h14, h15, h16, h17⟩ := h
    unfold module_set_param
    simp only [h1, h2, h3, h4, h5, h6, h7, h8, h9, h10, h11, h12, h13, h14, h15, h16, h17,
      if_false]
  refine ⟨key, ?_⟩
  intro hv hge
  apply key
  intro hm
  have := hv.2 idx hm
  omega

/-- C9 at index 17 of the enumeration numbered from 0 to 16. -/
theorem C9_set_param_unknown_index_is_noop_witness :
    module_set_param sampleExt sampleParams
      { rngH := 1, rngL := 2, svf := 3, ampEnv := 4, inAmp0 := 5, inAmp1 := 6, inAmp2 := 7,
        inAmp3 := 8, noiseAmp := 9, frameVal := 10 } 17 0x8000
    = { rngH := 1, rngL := 2, svf := 3, ampEnv := 4, inAmp0 := 5, inAmp1 := 6, inAmp2 := 7,
        inAmp3 := 8, noiseAmp := 9, frameVal := 10 } :=
  (C9_set_param_unknown_index_is_noop sampleExt sampleParams
    { rngH := 1, rngL := 2, svf := 3, ampEnv := 4, inAmp0 := 5, inAmp1 := 6, inAmp2 := 7,
      inAmp3 := 8, noiseAmp := 9, frameVal := 10 } 17 0x8000).2 (by decide) (by decide)

/-- C10: after `filter_1p_fix16_set_hz` the coefficient is at most 0xffff, so
strictly below the 16.16 unity 0x10000, whatever the exponential mapping
returned; the other fields are unchanged. -/
theorem C10_set_hz_coefficient_below_unity :
    ∀ (coef : Int → Nat → Int) (f : filter_1p_fix16) (hz : Int),
      (filter_1p_fix16_set_hz coef f hz).c ≤ 0xffff ∧
      (filter_1p_fix16_set_hz coef f hz).c < 0x10000 ∧
      (filter_1p_fix16_set_hz coef f hz).c = min (coef hz f.sr) 0xffff ∧
      (filter_1p_fix16_set_hz coef f hz).y = f.y ∧
      (filter_1p_fix16_set_hz coef f hz).x = f.x ∧
      (filter_1p_fix16_set_hz coef f hz).sync = f.sync ∧
      (filter_1p_fix16_set_hz coef f hz).sr = f.sr := by
  intro coef f hz
  unfold filter_1p_fix16_set_hz
  dsimp only
  split_ifs with h
  · have h1 : (0xffff : Int) ≤ coef hz f.sr := le_of_lt h
    exact ⟨le_refl _, show (0xffff : Int) < 0x10000 by decide, (min_eq_right h1).symm,
      rfl, rfl, rfl, rfl⟩
  · have h2 : coef hz f.sr ≤ 0xffff := not_lt.mp h
    have h3 : coef hz f.sr < 0x10000 := by omega
    exact ⟨h2, h3, (min_eq_left h2).symm, rfl, rfl, rfl, rfl⟩

/-! ## Facts about the non-interpolated tap -/

theorem tapN_next_hold (t : bufferTapN) (hd : t.div < U32_MOD) (h : t.divCount + 1 < t.div) :
    buffer_tapN_next t = { t with divCount := t.divCount + 1 } := by
  have h1 : (t.divCount + 1) % U32_MOD = t.divCount + 1 := Nat.mod_eq_of_lt (by omega)
  unfold buffer_tapN_next
  simp only [h1]
  rw [if_neg (by omega)]

theorem tapN_next_fire (t : bufferTapN) (hd : t.div < U32_MOD) (h : t.divCount + 1 = t.div) :
    buffer_tapN_next t =
      { t with divCount := 0, idx := ((t.idx + t.inc) % U32_MOD) % t.loop } := by
  have h1 : (t.divCount + 1) % U32_MOD = t.divCount + 1 := Nat.mod_eq_of_lt (by omega)
  unfold buffer_tapN_next
  simp only [h1]
  rw [if_pos (by omega)]

theorem nextsN_add (a b : Nat) (t : bufferTapN) : nextsN (a + b) t = nextsN b (nextsN a t) := by
  induction a generalizing t with
  | zero => simp [nextsN]
  | succ k ih =>
    rw [Nat.add_right_comm]
    show nextsN (k + b) (buffer_tapN_next t) = nextsN b (nextsN k (buffer_tapN_next t))
    exact ih _

theorem nextsN_hold (k : Nat) :
    ∀ t : bufferTapN, t.div < U32_MOD → t.divCount + k < t.div →
      nextsN k t = { t with divCount := t.divCount + k } := by
  induction k with
  | zero =>
    intro t _ _
    rfl
  | succ j ih =>
    intro t hd h
    show nextsN j (buffer_tapN_next t) = _
    rw [tapN_next_hold t hd (by omega)]
    have h2 := ih { t with divCount := t.divCount + 1 } hd (by show t.divCount + 1 + j < t.div; omega)
    rw [h2]
    simp only [bufferTapN.mk.injEq, true_and]
    omega

theorem tapN_next_count_lt (t : bufferTapN) (h1 : 1 ≤ t.div) :
    (buffer_tapN_next t).divCount < (buffer_tapN_next t).div ∧
    (buffer_tapN_next t).div = t.div := by
  unfold buffer_tapN_next
  dsimp only
  split_ifs with hc
  · exact ⟨h1, rfl⟩
  · exact ⟨by simpa using hc, rfl⟩

theorem nextsN_count_lt (k : Nat) :
    ∀ t : bufferTapN, 1 ≤ t.div → t.divCount < t.div →
      (nextsN k t).divCount < t.div ∧ (nextsN k t).div = t.div := by
  induction k with
  | zero =>
    intro t _ h
    exact ⟨h, rfl⟩
  | succ j ih =>
    intro t h1 _
    have hn := tapN_next_count_lt t h1
    have := ih (buffer_tapN_next t) (by rw [hn.2]; exact h1) hn.1
    rw [hn.2] at this
    exact this

/-- A full cycle of `div` calls advances the index once and brings the count
back to where it was. -/
theorem nextsN_cycle (t : bufferTapN) (hd : t.div < U32_MOD) (hc : t.divCount < t.div) :
    nextsN t.div t = { t with idx := ((t.idx + t.inc) % U32_MOD) % t.loop } := by
  have hsplit : t.div = (t.div - 1 - t.divCount) + 1 + t.divCount := by omega
  have e1 : nextsN (t.div - 1 - t.divCount) t = { t with divCount := t.div - 1 } := by
    rw [nextsN_hold _ t hd (by omega)]
    simp only [bufferTapN.mk.injEq, true_and]
    omega
  have e2 : nextsN 1 { t with divCount := t.div - 1 }
      = { t with divCount := 0, idx := ((t.idx + t.inc) % U32_MOD) % t.loop } := by
    show buffer_tapN_next _ = _
    have h2 := tapN_next_fire { t with divCount := t.div - 1 } hd
      (by show t.div - 1 + 1 = t.div; omega)
    rw [h2]
  have e3 : nextsN t.divCount
      { t with divCount := 0, idx := ((t.idx + t.inc) % U32_MOD) % t.loop }
      = { t with idx := ((t.idx + t.inc) % U32_MOD) % t.loop } := by
    have h2 := nextsN_hold t.divCount
      { t with divCount := 0, idx := ((t.idx + t.inc) % U32_MOD) % t.loop } hd
      (by show 0 + t.divCount < t.div; omega)
    rw [h2]
    simp
  conv_lhs => rw [hsplit]
  rw [nextsN_add, nextsN_add, e1, e2, e3]

/-- C11: for a tap with `div >= 1` whose count is below `div`, the index stays
put while the count climbs towards `div`, a full cycle of `div` calls advances
the index exactly once by `inc` (wrapped into the loop) and restores the count,
and the count stays in `[0, div)`.  With `div = 4`, `inc = 1` and the count at
0, three calls leave the index unchanged and four calls advance it by 1. -/
theorem C11_tapN_clock_division (t : bufferTapN) (ht : t.typed) (h1 : 1 ≤ t.div)
    (hc : t.divCount < t.div) :
    (∀ k, t.divCount + k < t.div →
      (nextsN k t).idx = t.idx ∧ (nextsN k t).divCount = t.divCount + k) ∧
    (nextsN t.div t).idx = ((t.idx + t.inc) % U32_MOD) % t.loop ∧
    (nextsN t.div t).divCount = t.divCount ∧
    (∀ k, (nextsN k t).divCount < t.div) ∧
    (t.div = 4 → t.inc = 1 → t.divCount = 0 →
      (nextsN 3 t).idx = t.idx ∧
      (nextsN 4 t).idx = ((t.idx + 1) % U32_MOD) % t.loop ∧
      (t.idx + 1 < t.loop → (nextsN 4 t).idx = t.idx + 1)) := by
  have hd : t.div < U32_MOD := ht.2.2.2.1
  have hcyc := nextsN_cycle t hd hc
  refine ⟨?_, by rw [hcyc], by rw [hcyc], fun k => (nextsN_count_lt k t h1 hc).1, ?_⟩
  · intro k hk
    rw [nextsN_hold k t hd hk]
    exact ⟨rfl, rfl⟩
  · intro h4 hi h0
    have h3 := nextsN_hold 3 t hd (by omega)
    rw [h4] at hcyc
    rw [hi] at hcyc
    refine ⟨by rw [h3], by rw [hcyc], ?_⟩
    intro hlt
    rw [hcyc]
    have hl : t.loop < U32_MOD := ht.1
    show (t.idx + 1) % U32_MOD % t.loop = t.idx + 1
    have e1 : (t.idx + 1) % U32_MOD = t.idx + 1 := Nat.mod_eq_of_lt (by omega)
    rw [e1, Nat.mod_eq_of_lt hlt]

/-- C11 at a fresh tap over a loop of 1000 frames, `div = 4`, `inc = 1`. -/
theorem C11_tapN_clock_division_witness :
    (nextsN 3
      { buf := { frames := 1000, dur := 0, data := [] }, loop := 1000, idx := 0,
        inc := 1, div := 4, divCount := 0 }).idx = 0 ∧
    (nextsN 4
      { buf := { frames := 1000, dur := 0, data := [] }, loop := 1000, idx := 0,
        inc := 1, div := 4, divCount := 0 }).idx = 1 :=
  have h := (C11_tapN_clock_division
    { buf := { frames := 1000, dur := 0, data := [] }, loop := 1000, idx := 0,
      inc := 1, div := 4, divCount := 0 } (by decide) (by decide) (by decide)).2.2.2.2
    rfl rfl rfl
  ⟨h.1, h.2.2 (by decide)⟩

/-! ## Facts about the drum module -/

/-- Two enumerators at different places of the member list are different. -/
theorem members_ne (p : ParamEnum) (hp : p.valid) (i j : Nat) (hi : i < 17) (hj : j < 17)
    (hij : i ≠ j) : p.members[i] ≠ p.members[j] := by
  intro h
  exact hij ((hp.1.getElem_inj_iff).1 h)

/-- With pairwise different enumerators, the three indices `eParamInAmp1`,
`eParamInAmp2` and `eParamInAmp3` reach their own `case`, which writes
`inAmp0`. -/
theorem set_param_inAmp123 (e : DrumsExt Rng Svf Env) (p : ParamEnum) (s : Drums Rng Svf Env)
    (idx : Nat) (v : Int) (hp : p.valid)
    (hidx : idx = p.eParamInAmp1 ∨ idx = p.eParamInAmp2 ∨ idx = p.eParamInAmp3) :
    module_set_param e p s idx v = { s with inAmp0 := e.FIX16_FRACT_TRUNC v } := by
  have k := members_ne p hp
  unfold module_set_param
  rcases hidx with h | h | h
  · subst h
    have c0 : ¬ p.eParamInAmp1 = p.eParamGate :=
      k 10 0 (by decide) (by decide) (by decide)
    have c1 : ¬ p.eParamInAmp1 = p.eParamSvfHz :=
      k 10 1 (by decide) (by decide) (by decide)
    have c2 : ¬ p.eParamInAmp1 = p.eParamSvfRq :=
      k 10 2 (by decide) (by decide) (by decide)
    have c3 : ¬ p.eParamInAmp1 = p.eParamSvfLow :=
      k 10 3 (by decide) (by decide) (by decide)
    have c4 : ¬ p.eParamInAmp1 = p.eParamSvfHigh :=
      k 10 4 (by decide) (by decide) (by decide)
    have c5 : ¬ p.eParamInAmp1 = p.eParamSvfBand :=
      k 10 5 (by decide) (by decide) (by decide)
    have c6 : ¬ p.eParamInAmp1 = p.eParamSvfNotch :=
      k 10 6 (by decide) (by decide) (by decide)
    have c7 : ¬ p.eParamInAmp1 = p.eParamSvfPeak :=
      k 10 7 (by decide) (by decide) (by decide)
    have c8 : ¬ p.eParamInAmp1 = p.eParamNoiseAmp :=
      k 10 8 (by decide) (by decide) (by decide)
    have c9 : ¬ p.eParamInAmp1 = p.eParamInAmp0 :=
      k 10 9 (by decide) (by decide) (by decide)
    rw [if_neg c0, if_neg c1, if_neg c2, if_neg c3, if_neg c4, if_neg c5, if_neg c6, if_neg c7, if_neg c8, if_neg c9, if_pos rfl]
  · subst h
    have c0 : ¬ p.eParamInAmp2 = p.eParamGate :=
      k 11 0 (by decide) (by decide) (by decide)
    have c1 : ¬ p.eParamInAmp2 = p.eParamSvfHz :=
      k 11 1 (by decide) (by decide) (by decide)
    have c2 : ¬ p.eParamInAmp2 = p.eParamSvfRq :=
      k 11 2 (by decide) (by decide) (by decide)
    have c3 : ¬ p.eParamInAmp2 = p.eParamSvfLow :=
      k 11 3 (by decide) (by decide) (by decide)
    have c4 : ¬ p.eParamInAmp2 = p.eParamSvfHigh :=
      k 11 4 (by decide) (by decide) (by decide)
    have c5 : ¬ p.eParamInAmp2 = p.eParamSvfBand :=
      k 11 5 (by decide) (by decide) (by decide)
    have c6 : ¬ p.eParamInAmp2 = p.eParamSvfNotch :=
      k 11 6 (by decide) (by decide) (by decide)
    have c7 : ¬ p.eParamInAmp2 = p.eParamSvfPeak :=
      k 11 7 (by decide) (by decide) (by decide)
    have c8 : ¬ p.eParamInAmp2 = p.eParamNoiseAmp :=
      k 11 8 (by decide) (by decide) (by decide)
    have c9 : ¬ p.eParamInAmp2 = p.eParamInAmp0 :=
      k 11 9 (by decide) (by decide) (by decide)
    have c10 : ¬ p.eParamInAmp2 = p.eParamInAmp1 :=
      k 11 10 (by decide) (by decide) (by decide)
    rw [if_neg c0, if_neg c1, if_neg c2, if_neg c3, if_neg c4, if_neg c5, if_neg c6, if_neg c7, if_neg c8, if_neg c9, if_neg c10, if_pos rfl]
  · subst h
    have c0 : ¬ p.eParamInAmp3 = p.eParamGate :=
      k 12 0 (by decide) (by decide) (by decide)
    have c1 : ¬ p.eParamInAmp3 = p.eParamSvfHz :=
      k 12 1 (by decide) (by decide) (by decide)
    have c2 : ¬ p.eParamInAmp3 = p.eParamSvfRq :=
      k 12 2 (by decide) (by decide) (by decide)
    have c3 : ¬ p.eParamInAmp3 = p.eParamSvfLow :=
      k 12 3 (by decide) (by decide) (by decide)
    have c4 : ¬ p.eParamInAmp3 = p.eParamSvfHigh :=
      k 12 4 (by decide) (by decide) (by decide)
    have c5 : ¬ p.eParamInAmp3 = p.eParamSvfBand :=
      k 12 5 (by decide) (by decide) (by decide)
    have c6 : ¬ p.eParamInAmp3 = p.eParamSvfNotch :=
      k 12 6 (by decide) (by decide) (by decide)
    have c7 : ¬ p.eParamInAmp3 = p.eParamSvfPeak :=
      k 12 7 (by decide) (by decide) (by decide)
    have c8 : ¬ p.eParamInAmp3 = p.eParamNoiseAmp :=
      k 12 8 (by decide) (by decide) (by decide)
    have c9 : ¬ p.eParamInAmp3 = p.eParamInAmp0 :=
      k 12 9 (by decide) (by decide) (by decide)
    have c10 : ¬ p.eParamInAmp3 = p.eParamInAmp1 :=
      k 12 10 (by decide) (by decide) (by decide)
    have c11 : ¬ p.eParamInAmp3 = p.eParamInAmp2 :=
      k 12 11 (by decide) (by decide) (by decide)
    rw [if_neg c0, if_neg c1, if_neg c2, if_neg c3, if_neg c4, if_neg c5, if_neg c6, if_neg c7, if_neg c8, if_neg c9, if_neg c10, if_neg c11, if_pos rfl]

theorem set_param_inAmp0 (e : DrumsExt Rng Svf Env) (p : ParamEnum) (s : Drums Rng Svf Env)
    (v : Int) (hp : p.valid) :
    module_set_param e p s p.eParamInAmp0 v = { s with inAmp0 := e.FIX16_FRACT_TRUNC v } := by
  have k := members_ne p hp
  unfold module_set_param
  have c0 : ¬ p.eParamInAmp0 = p.eParamGate :=
    k 9 0 (by decide) (by decide) (by decide)
  have c1 : ¬ p.eParamInAmp0 = p.eParamSvfHz :=
    k 9 1 (by decide) (by decide) (by decide)
  have c2 : ¬ p.eParamInAmp0 = p.eParamSvfRq :=
    k 9 2 (by decide) (by decide) (by decide)
  have c3 : ¬ p.eParamInAmp0 = p.eParamSvfLow :=
    k 9 3 (by decide) (by decide) (by decide)
  have c4 : ¬ p.eParamInAmp0 = p.eParamSvfHigh :=
    k 9 4 (by decide) (by decide) (by decide)
  have c5 : ¬ p.eParamInAmp0 = p.eParamSvfBand :=
    k 9 5 (by decide) (by decide) (by decide)
  have c6 : ¬ p.eParamInAmp0 = p.eParamSvfNotch :=
    k 9 6 (by decide) (by decide) (by decide)
  have c7 : ¬ p.eParamInAmp0 = p.eParamSvfPeak :=
    k 9 7 (by decide) (by decide) (by decide)
  have c8 : ¬ p.eParamInAmp0 = p.eParamNoiseAmp :=
    k 9 8 (by decide) (by decide) (by decide)
  rw [if_neg c0, if_neg c1, if_neg c2, if_neg c3, if_neg c4, if_neg c5, if_neg c6, if_neg c7, if_neg c8, if_pos rfl]

/-- C12: with index `eParamInAmp1`, `eParamInAmp2` or `eParamInAmp3`,
`module_set_param` stores `FIX16_FRACT_TRUNC(v.fix)` in `inAmp0`, exactly as it
does for `eParamInAmp0`, and leaves `inAmp1`, `inAmp2`, `inAmp3` and every
other variable unchanged. -/
theorem C12_inAmp_params_all_write_inAmp0 (e : DrumsExt Rng Svf Env) (p : ParamEnum)
    (s : Drums Rng Svf Env) (idx : Nat) (v : Int) (hp : p.valid)
    (hidx : idx = p.eParamInAmp1 ∨ idx = p.eParamInAmp2 ∨ idx = p.eParamInAmp3) :
    module_set_param e p s idx v = { s with inAmp0 := e.FIX16_FRACT_TRUNC v } ∧
    module_set_param e p s idx v = module_set_param e p s p.eParamInAmp0 v ∧
    (module_set_param e p s idx v).inAmp0 = e.FIX16_FRACT_TRUNC v ∧
    (module_set_param e p s idx v).inAmp1 = s.inAmp1 ∧
    (module_set_param e p s idx v).inAmp2 = s.inAmp2 ∧
    (module_set_param e p s idx v).inAmp3 = s.inAmp3 := by
  have h := set_param_inAmp123 e p s idx v hp hidx
  have h0 := set_param_inAmp0 e p s v hp
  rw [h0, h]
  exact ⟨rfl, rfl, rfl, rfl, rfl, rfl⟩

/-- C12 at `eParamInAmp2` (index 11 of the enumeration numbered from 0) with
the value 0x8000. -/
theorem C12_inAmp_params_all_write_inAmp0_witness :
    (module_set_param sampleExt sampleParams
      { rngH := 1, rngL := 2, svf := 3, ampEnv := 4, inAmp0 := 5, inAmp1 := 6, inAmp2 := 7,
        inAmp3 := 8, noiseAmp := 9, frameVal := 10 } 11 0x8000).inAmp0
      = sampleExt.FIX16_FRACT_TRUNC 0x8000 ∧
    (module_set_param sampleExt sampleParams
      { rngH := 1, rngL := 2, svf := 3, ampEnv := 4, inAmp0 := 5, inAmp1 := 6, inAmp2 := 7,
        inAmp3 := 8, noiseAmp := 9, frameVal := 10 } 11 0x8000).inAmp2 = 7 :=
  have h := C12_inAmp_params_all_write_inAmp0 sampleExt sampleParams
    { rngH := 1, rngL := 2, svf := 3, ampEnv := 4, inAmp0 := 5, inAmp1 := 6, inAmp2 := 7,
      inAmp3 := 8, noiseAmp := 9, frameVal := 10 } 11 0x8000 (by decide)
    (Or.inr (Or.inl rfl))
  ⟨h.2.2.1, h.2.2.2.2.1⟩

theorem mult_fr1x32x32_zero (a : Int) : mult_fr1x32x32 a 0 = 0 := by
  simp [mult_fr1x32x32, sat32_zero]

theorem set_param_inAmp123_unchanged (e : DrumsExt Rng Svf Env) (p : ParamEnum)
    (s : Drums Rng Svf Env) (idx : Nat) (v : Int) :
    (module_set_param e p s idx v).inAmp1 = s.inAmp1 ∧
    (module_set_param e p s idx v).inAmp2 = s.inAmp2 ∧
    (module_set_param e p s idx v).inAmp3 = s.inAmp3 := by
  unfold module_set_param
  refine ⟨?_, ?_, ?_⟩
  · simp only [apply_ite Drums.inAmp1, ite_self]
  · simp only [apply_ite Drums.inAmp2, ite_self]
  · simp only [apply_ite Drums.inAmp3, ite_self]

theorem runDrums_inAmp123 (e : DrumsExt Rng Svf Env) (p : ParamEnum) (ops : List DrumOp) :
    ∀ s : Drums Rng Svf Env, s.inAmp1 = 0 → s.inAmp2 = 0 → s.inAmp3 = 0 →
      (runDrums e p s ops).inAmp1 = 0 ∧ (runDrums e p s ops).inAmp2 = 0 ∧
      (runDrums e p s ops).inAmp3 = 0 := by
  induction ops with
  | nil =>
    intro s h1 h2 h3
    exact ⟨h1, h2, h3⟩
  | cons op rest ih =>
    intro s h1 h2 h3
    show (runDrums e p (DrumOp.apply e p s op) rest).inAmp1 = 0 ∧ _
    cases op with
    | set_param idx v =>
      have h := set_param_inAmp123_unchanged e p s idx v
      exact ih _ (by rw [DrumOp.apply, h.1]; exact h1) (by rw [DrumOp.apply, h.2.1]; exact h2)
        (by rw [DrumOp.apply, h.2.2]; exact h3)
    | frame inp =>
      exact ih _ h1 h2 h3

/-- With the gains of inputs 1 to 3 at zero, `calc_frame` does not depend on
those inputs. -/
theorem calc_frame_ignores_in123 (e : DrumsExt Rng Svf Env) (s : Drums Rng Svf Env)
    (inp inp2 : Frame) (h1 : s.inAmp1 = 0) (h2 : s.inAmp2 = 0) (h3 : s.inAmp3 = 0)
    (h0 : inp.ch0 = inp2.ch0) : calc_frame e s inp = calc_frame e s inp2 := by
  unfold calc_frame noise_next
  simp only [h1, h2, h3, h0, mult_fr1x32x32_zero]

/-- C13: after `module_init` and any sequence of `module_set_param` calls (and
processed frames) the gains `inAmp1`, `inAmp2` and `inAmp3` are 0, and two
frames that agree on `in[0]` give the same `calc_frame` state, hence the same
frame value and the same four output channels, whatever `in[1]`, `in[2]` and
`in[3]` hold. -/
theorem C13_inputs_1_to_3_never_reach_output (e : DrumsExt Rng Svf Env) (p : ParamEnum)
    (s0 : Drums Rng Svf Env) (ops : List DrumOp) (inp inp2 : Frame)
    (h0 : inp.ch0 = inp2.ch0) :
    (runDrums e p (module_init e s0) ops).inAmp1 = 0 ∧
    (runDrums e p (module_init e s0) ops).inAmp2 = 0 ∧
    (runDrums e p (module_init e s0) ops).inAmp3 = 0 ∧
    calc_frame e (runDrums e p (module_init e s0) ops) inp
      = calc_frame e (runDrums e p (module_init e s0) ops) inp2 ∧
    module_process_frame e (runDrums e p (module_init e s0) ops) inp
      = module_process_frame e (runDrums e p (module_init e s0) ops) inp2 := by
  have h := runDrums_inAmp123 e p ops (module_init e s0) rfl rfl rfl
  have hc := calc_frame_ignores_in123 e _ inp inp2 h.1 h.2.1 h.2.2 h0
  refine ⟨h.1, h.2.1, h.2.2, hc, ?_⟩
  unfold module_process_frame
  rw [hc]

/-- C13 after three parameter writes to the input gains: frames that differ in
inputs 1 to 3 give the same outputs. -/
theorem C13_inputs_1_to_3_never_reach_output_witness :
    module_process_frame sampleExt
        (runDrums sampleExt sampleParams
          (module_init sampleExt
            { rngH := 1, rngL := 2, svf := 3, ampEnv := 4, inAmp0 := 5, inAmp1 := 6,
              inAmp2 := 7, inAmp3 := 8, noiseAmp := 9, frameVal := 10 })
          [DrumOp.set_param 10 0xffff, DrumOp.set_param 11 0xffff, DrumOp.set_param 12 0xffff])
        { ch0 := 100, ch1 := 200, ch2 := 300, ch3 := 400 }
      = module_process_frame sampleExt
        (runDrums sampleExt sampleParams
          (module_init sampleExt
            { rngH := 1, rngL := 2, svf := 3, ampEnv := 4, inAmp0 := 5, inAmp1 := 6,
              inAmp2 := 7, inAmp3 := 8, noiseAmp := 9, frameVal := 10 })
          [DrumOp.set_param 10 0xffff, DrumOp.set_param 11 0xffff, DrumOp.set_param 12 0xffff])
        { ch0 := 100, ch1 := -5, ch2 := 0x7fffffff, ch3 := 1 } :=
  (C13_inputs_1_to_3_never_reach_output sampleExt sampleParams
    { rngH := 1, rngL := 2, svf := 3, ampEnv := 4, inAmp0 := 5, inAmp1 := 6,
      inAmp2 := 7, inAmp3 := 8, noiseAmp := 9, frameVal := 10 }
    [DrumOp.set_param 10 0xffff, DrumOp.set_param 11 0xffff, DrumOp.set_param 12 0xffff]
    { ch0 := 100, ch1 := 200, ch2 := 300, ch3 := 400 }
    { ch0 := 100, ch1 := -5, ch2 := 0x7fffffff, ch3 := 1 } rfl).2.2.2.2

/-! ## Facts about the big-number operator -/

theorem op_bignum_redraw_fields (e : BignumExt G) (b : op_bignum_t G) :
    (op_bignum_redraw e b).y = b.y ∧ (op_bignum_redraw e b).reg_y = b.reg_y ∧
    (op_bignum_redraw e b).x = b.x := by
  unfold op_bignum_redraw
  split_ifs <;> exact ⟨rfl, rfl, rfl⟩

/-- C14: with index 4 `op_bignum_inc` sets `y` and the region's `y` to the
capped value of `op_sadd(x, inc)`: the sum is taken from the current `x`, not
from the current `y`.  From `x = 10`, `y = 20` an increment of 1 gives `y = 11`
(whatever `y` was), and the result changes with `x`. -/
theorem C14_inc_y_adds_to_x :
    (∀ (G : Type) (e : BignumExt G) (b : op_bignum_t G) (inc : Int),
      (op_bignum_inc e b 4 inc).y
        = e.to_reg_coord (if e.op_sadd b.x inc > e.OP_BIGNUM_Y_MAX then e.OP_BIGNUM_Y_MAX
            else e.op_sadd b.x inc) ∧
      (op_bignum_inc e b 4 inc).reg_y = (op_bignum_inc e b 4 inc).y ∧
      (op_bignum_inc e b 4 inc).x = b.x) ∧
    (op_bignum_inc sampleBignumExt
      { enable := 1, period := 50, val := 0, x := 10, y := 20, reg_x := 10, reg_y := 20,
        timer_ticks := 50, world := 0 } 4 1).y = 11 ∧
    (op_bignum_inc sampleBignumExt
      { enable := 1, period := 50, val := 0, x := 10, y := 5, reg_x := 10, reg_y := 5,
        timer_ticks := 50, world := 0 } 4 1).y = 11 ∧
    (op_bignum_inc sampleBignumExt
      { enable := 1, period := 50, val := 0, x := 3, y := 20, reg_x := 3, reg_y := 20,
        timer_ticks := 50, world := 0 } 4 1).y = 4 := by
  refine ⟨?_, by decide, by decide, by decide⟩
  intro G e b inc
  have h : op_bignum_inc e b 4 inc = op_bignum_in_y e b (e.op_sadd b.x inc) := by
    unfold op_bignum_inc
    simp
  rw [h]
  unfold op_bignum_in_y
  simp only
  have hr := op_bignum_redraw_fields e
  by_cases hc : e.op_sadd b.x inc > e.OP_BIGNUM_Y_MAX
  · simp only [if_pos hc, hr]
    exact ⟨trivial, trivial, trivial⟩
  · simp only [if_neg hc, hr]
    exact ⟨trivial, trivial, trivial⟩

/-! ## Facts about decimal printing -/

theorem decimal_digits_small (n : Nat) (h : n / 10 = 0) : decimal_digits n = [n % 10] := by
  have hlt : n < 10 := by omega
  unfold decimal_digits
  by_cases h0 : n = 0
  · simp [h0]
  · rw [if_neg h0, Nat.digits_of_lt 10 n h0 hlt, Nat.mod_eq_of_lt hlt]
    rfl

theorem decimal_digits_step (n : Nat) (h : n / 10 ≠ 0) :
    decimal_digits n = decimal_digits (n / 10) ++ [n % 10] := by
  have h0 : n ≠ 0 := by
    intro hn
    rw [hn] at h
    exact h rfl
  unfold decimal_digits
  rw [if_neg h0, if_neg h, Nat.digits_def' (by decide) (Nat.pos_of_ne_zero h0)]
  simp

theorem decimal_digits_length_le (n : Nat) (hn : n < 4294967296) :
    (decimal_digits n).length ≤ 10 := by
  unfold decimal_digits
  by_cases h0 : n = 0
  · simp [h0]
  · rw [if_neg h0, List.length_reverse]
    have h1 := Nat.base_pow_length_digits_le' 8 n h0
    have h2 : (10 : Nat) ^ (Nat.digits 10 n).length < 10 ^ 11 := by
      have : (10 : Nat) * n < 10 ^ 11 := by omega
      exact lt_of_le_of_lt h1 this
    have h3 := (Nat.pow_lt_pow_iff_right (by decide : 1 < 10)).1 h2
    omega

theorem drop_set_self (l : List Nat) (i d : Nat) (h : i < l.length) :
    (l.set i d).drop i = d :: l.drop (i + 1) := by
  rw [List.drop_set, if_neg (lt_irrefl i), Nat.sub_self, List.drop_eq_getElem_cons h]
  rfl

/-- The loop writes the ASCII digits of `n` just below index `i` and leaves the
buffer from `i` on unchanged, provided the digits fit below `i`. -/
theorem print_ulong_loop_spec (i : Nat) :
    ∀ (tmp : List Nat) (n : Nat), (decimal_digits n).length ≤ i → i ≤ tmp.length →
      ∃ tmp2 i2, print_ulong_loop tmp i n = some (tmp2, i2) ∧
        i2 + (decimal_digits n).length = i ∧
        tmp2.drop i2 = ascii_decimal n ++ tmp.drop i := by
  induction i with
  | zero =>
    intro tmp n hl _
    exfalso
    unfold decimal_digits at hl
    by_cases h0 : n = 0
    · simp [h0] at hl
    · rw [if_neg h0, List.length_reverse] at hl
      have hne : Nat.digits 10 n ≠ [] := Nat.digits_ne_nil_iff_ne_zero.mpr h0
      exact hne (List.length_eq_zero.mp (Nat.le_zero.mp hl))
  | succ j ih =>
    intro tmp n hl hlen
    unfold print_ulong_loop
    simp only
    by_cases hq : n / 10 = 0
    · rw [if_neg (by simpa using hq)]
      refine ⟨_, _, rfl, ?_, ?_⟩
      · rw [decimal_digits_small n hq]
        rfl
      · rw [drop_set_self tmp j _ (by omega)]
        unfold ascii_decimal
        rw [decimal_digits_small n hq]
        rfl
    · rw [if_pos hq]
      have hstep := decimal_digits_step n hq
      have hl2 : (decimal_digits (n / 10)).length ≤ j := by
        rw [hstep, List.length_append] at hl
        simp at hl
        exact hl
      obtain ⟨tmp2, i2, h1, h2, h3⟩ := ih (tmp.set j (48 + n % 10)) (n / 10) hl2
        (by rw [List.length_set]; omega)
      refine ⟨tmp2, i2, h1, ?_, ?_⟩
      · rw [hstep, List.length_append]
        simp
        omega
      · rw [h3, drop_set_self tmp j _ (by omega)]
        unfold ascii_decimal
        rw [hstep]
        simp

theorem ascii_decimal_ne_zero (n : Nat) : ∀ c ∈ ascii_decimal n, c ≠ 0 := by
  intro c hc
  unfold ascii_decimal at hc
  rw [List.mem_map] at hc
  obtain ⟨d, _, hd⟩ := hc
  omega

theorem print_ulong_buf_spec (tmp0 : List Nat) (n : Nat) (hlen : tmp0.length = 11)
    (hn : n < 4294967296) :
    ∃ tmp2 i2, print_ulong_buf tmp0 n = some (tmp2, i2) ∧
      i2 + (decimal_digits n).length = 10 ∧
      tmp2.drop i2 = ascii_decimal n ++ [0] := by
  obtain ⟨tmp2, i2, h1, h2, h3⟩ := print_ulong_loop_spec 10 (tmp0.set 10 0) n
    (decimal_digits_length_le n hn) (by rw [List.length_set]; omega)
  refine ⟨tmp2, i2, h1, h2, ?_⟩
  rw [h3, drop_set_self tmp0 10 0 (by omega), List.drop_eq_nil_of_le (by omega)]

theorem decimal_digits_facts (n : Nat) :
    1 ≤ (decimal_digits n).length ∧
    (∀ d ∈ decimal_digits n, d < 10) ∧
    Nat.ofDigits 10 (decimal_digits n).reverse = n ∧
    (n = 0 → decimal_digits n = [0]) ∧
    (n ≠ 0 → (decimal_digits n).head? ≠ some 0) := by
  unfold decimal_digits
  by_cases h0 : n = 0
  · subst h0
    simp
  · simp only [if_neg h0, List.length_reverse, List.mem_reverse, List.reverse_reverse]
    have hne : Nat.digits 10 n ≠ [] := Nat.digits_ne_nil_iff_ne_zero.mpr h0
    refine ⟨?_, fun d hd => Nat.digits_lt_base (by decide) hd, Nat.ofDigits_digits 10 n,
      fun h => absurd h h0, fun _ => ?_⟩
    · exact Nat.pos_of_ne_zero (fun h => hne (List.length_eq_zero.mp h))
    · rw [List.head?_reverse, List.getLast?_eq_getLast _ hne]
      intro h
      exact Nat.getLast_digit_ne_zero 10 h0 (Option.some.inj h)

/-- C15: for every `n` below 2^32 and every initial content of the 11-byte
buffer, `print_ulong` transmits exactly the ASCII decimal representation of
`n`: the digits most significant first, no leading zero, the single digit 0 for
`n = 0`.  The loop ends with the index at `10 - (number of digits)`, which is
not negative since there are at most 10 digits, and the digits in the buffer
are followed by the NUL written at index 10. -/
theorem C15_print_ulong_transmits_decimal (tmp0 : List Nat) (n : Nat)
    (hlen : tmp0.length = 11) (hn : n < 4294967296) :
    print_ulong tmp0 n = some (ascii_decimal n) ∧
    (∃ tmp2 i2, print_ulong_buf tmp0 n = some (tmp2, i2) ∧
      i2 + (decimal_digits n).length = 10 ∧
      tmp2.drop i2 = ascii_decimal n ++ [0]) ∧
    (decimal_digits n).length ≤ 10 ∧
    1 ≤ (decimal_digits n).length ∧
    (∀ d ∈ decimal_digits n, d < 10) ∧
    Nat.ofDigits 10 (decimal_digits n).reverse = n ∧
    (n = 0 → decimal_digits n = [0]) ∧
    (n ≠ 0 → (decimal_digits n).head? ≠ some 0) := by
  have hb := print_ulong_buf_spec tmp0 n hlen hn
  refine ⟨?_, hb, decimal_digits_length_le n hn, decimal_digits_facts n⟩
  obtain ⟨tmp2, i2, h1, _, h3⟩ := hb
  unfold print_ulong
  rw [h1]
  simp only [c_string, h3]
  rw [List.takeWhile_append_of_pos (by
    intro a ha
    simpa using ascii_decimal_ne_zero n a ha)]
  simp

/-- C15 at `n = 4294967295`, the largest argument, on a buffer filled with the
byte 0xff: the ten characters "4294967295" are transmitted. -/
theorem C15_print_ulong_transmits_decimal_witness :
    print_ulong [255, 255, 255, 255, 255, 255, 255, 255, 255, 255, 255] 4294967295
      = some [52, 50, 57, 52, 57, 54, 55, 50, 57, 53] := by
  have h := (C15_print_ulong_transmits_decimal
    [255, 255, 255, 255, 255, 255, 255, 255, 255, 255, 255] 4294967295 rfl (by decide)).1
  rw [h]
  norm_num [ascii_decimal, decimal_digits]

end Aleph
